import Mathlib

/-!
Verification development for the Rust RP2A03 / NES emulator
(`src/cpu.rs`, `src/apu.rs`).

The Rust source is shallowly embedded: machine integers (u8 / u16) are
modelled as `Nat` with explicit reduction modulo 2^8 / 2^16 wherever the
Rust code relies on wrapping behaviour (the release-profile two's-complement
semantics of the arithmetic operators, and the explicit `wrapping_add`
calls), fallible operations (array / `Vec` indexing, which panics when out
of bounds) return `Option`, and the mpsc channel sends of the APU are
modelled as lists of emitted messages returned alongside the new state.
-/

set_option maxRecDepth 8000

/-- Wrapping 8-bit addition (Rust `u8 + u8` under release-profile wrap). -/
def add8 (a b : Nat) : Nat := (a + b) % 256

/-- Wrapping 8-bit subtraction (Rust `u8 - u8` under release-profile wrap). -/
def sub8 (a b : Nat) : Nat := (a % 256 + 256 - b % 256) % 256

/-- Rust `u8 << sh` in release profile: the shift amount is masked to the
bit width and the result is truncated to 8 bits. -/
def shl8 (v sh : Nat) : Nat := (v <<< (sh % 8)) % 256

/-- Wrapping 16-bit addition (`u16::wrapping_add`, and `u16 + u16` wrap). -/
def add16 (a b : Nat) : Nat := (a + b) % 65536

namespace Cpu

/-- bit masks from `cpu.rs` -/
def BIN_BIT_7 : Nat := 0x80

def BIN_BIT_6 : Nat := 0x40

def BIN_BIT_0 : Nat := 0x01

def NEGATIVE_FLG : Nat := 0x80

def OVERFLOW_FLG : Nat := 0x40

def R_FLG : Nat := 0x20

def BREAK_COMMAND_FLG : Nat := 0x10

def DECIMAL_MODE_FLG : Nat := 0x08

def INTERRUPT_DISABLE_FLG : Nat := 0x04

def ZERO_FLG : Nat := 0x02

def CARRY_FLG : Nat := 0x01

def ADDR_PRG_ROM : Nat := 0x8000

def ADDR_VEC_TBL_IRQ : Nat := 0xFFFE

/-- the RP2A03 status register (`struct StatusRegister { p_reg: u8 }`) -/
structure StatusRegister where
  p_reg : Nat
deriving DecidableEq, Repr

/-- `StatusRegister::new` : bit 5 (R) starts set. -/
def StatusRegister.new : StatusRegister := ⟨R_FLG⟩

/-- `p_reg &= !flg` (u8 complement is xor with 0xFF). -/
def StatusRegister.cls_status_flg (s : StatusRegister) (flg : Nat) : StatusRegister :=
  ⟨s.p_reg &&& (flg ^^^ 0xFF)⟩

/-- `p_reg |= flg` -/
def StatusRegister.set_status_flg (s : StatusRegister) (flg : Nat) : StatusRegister :=
  ⟨s.p_reg ||| flg⟩

/-- `(p_reg & flg) != 0` -/
def StatusRegister.get_status_flg (s : StatusRegister) (flg : Nat) : Bool :=
  (s.p_reg &&& flg) != 0

/-- `get_status_flg_all` returns the raw byte. -/
def StatusRegister.get_status_flg_all (s : StatusRegister) : Nat := s.p_reg

/-- `set_status_flg_all` overwrites the raw byte. -/
def StatusRegister.set_status_flg_all (_ : StatusRegister) (val : Nat) : StatusRegister :=
  ⟨val⟩

/-- `nzv_flg_update` : despite its name it only updates Z (from `val == 0`)
and N (from bit 7 of `val`); it never touches V. -/
def StatusRegister.nzv_flg_update (s : StatusRegister) (val : Nat) : StatusRegister :=
  let s := if val = 0 then s.set_status_flg ZERO_FLG else s.cls_status_flg ZERO_FLG
  if val &&& BIN_BIT_7 ≠ 0 then s.set_status_flg NEGATIVE_FLG
  else s.cls_status_flg NEGATIVE_FLG

/-- `c_flg_update_add` : computes `a + b` in u16; on carry out of bit 7 it
sets C and returns 0x00, otherwise it clears C and returns the sum. -/
def StatusRegister.c_flg_update_add (s : StatusRegister) (val_a val_b : Nat) :
    StatusRegister × Nat :=
  let ret := val_a + val_b
  if ret > 0x00FF then (s.set_status_flg CARRY_FLG, 0x00)
  else (s.cls_status_flg CARRY_FLG, ret)

/-- `c_flg_update_l_shit` : C from bit 7, then shift left with truncation
to 8 bits (the final `as u8` cast). -/
def StatusRegister.c_flg_update_l_shit (s : StatusRegister) (val : Nat) :
    StatusRegister × Nat :=
  let s := if val &&& BIN_BIT_7 ≠ 0 then s.set_status_flg CARRY_FLG
           else s.cls_status_flg CARRY_FLG
  let ret := val <<< 1
  let ret := if ret > 0x00FF then ret &&& 0x00FF else ret
  (s, ret % 256)

/-- `c_flg_update_r_shit` : C from bit 0, then shift right. -/
def StatusRegister.c_flg_update_r_shit (s : StatusRegister) (val : Nat) :
    StatusRegister × Nat :=
  let s := if val &&& BIN_BIT_0 ≠ 0 then s.set_status_flg CARRY_FLG
           else s.cls_status_flg CARRY_FLG
  let ret := val >>> 1
  let ret := if ret ≤ 0 then 0 else ret
  (s, ret % 256)

/-- a Rust fixed-size array `[u8; size]` is modelled as a total map from
indices to bytes; `arrGet` performs the bound check that Rust indexing
performs (an out-of-bounds index panics, modelled as `none`). -/
def arrGet (size : Nat) (a : Nat → Nat) (i : Nat) : Option Nat :=
  if i < size then some (a i) else none

/-- indexed assignment into a fixed-size array, with the same bound
check. -/
def arrSet (size : Nat) (a : Nat → Nat) (i v : Nat) : Option (Nat → Nat) :=
  if i < size then some (fun j => if j = i then v else a j) else none

/-- `struct NESMemory` : the four fixed-size register/RAM arrays are total
maps (their sizes, from the Rust types, appear in every access); the
growable cartridge `Vec`s are lists. -/
structure NESMemory where
  wram : Nat → Nat
  vram : Nat → Nat
  ppu_registers : Nat → Nat
  apu_registers : Nat → Nat
  chr_rom : List Nat
  ext_ram : List Nat
  prg_rom : List Nat

/-- `NESMemory::new` -/
def NESMemory.new : NESMemory :=
  ⟨fun _ => 0, fun _ => 0, fun _ => 0, fun _ => 0, [], [], []⟩

/-- `NESMemory::mem_read` : dispatch by address range; out-of-bounds
indexing of a backing array (and the unmatched $4018–$401F gap, which
panics) yields `none`. -/
def NESMemory.mem_read (m : NESMemory) (address : Nat) : Option Nat :=
  if address < 0x0800 then arrGet 2048 m.wram address
  else if address < 0x2000 then arrGet 2048 m.wram (address % 0x0800)
  else if address < 0x2008 then arrGet 8 m.ppu_registers (address - 0x2000)
  else if address < 0x4000 then arrGet 2048 m.vram (address - 0x2000)
  else if address < 0x4018 then arrGet 24 m.apu_registers (address - 0x4000)
  else if address < 0x4020 then none
  else if address < 0x6000 then m.chr_rom.get? (address - 0x4020)
  else if address < 0x8000 then m.ext_ram.get? (address - 0x6000)
  else if address < 0x10000 then m.prg_rom.get? (address - 0x8000)
  else none

/-- `NESMemory::mem_write` : same dispatch, storing the byte (writes into
the cartridge `Vec`s keep the list representation). -/
def NESMemory.mem_write (m : NESMemory) (address data : Nat) : Option NESMemory :=
  if address < 0x0800 then
    (arrSet 2048 m.wram address data).map fun l => { m with wram := l }
  else if address < 0x2000 then
    (arrSet 2048 m.wram (address % 0x0800) data).map fun l => { m with wram := l }
  else if address < 0x2008 then
    (arrSet 8 m.ppu_registers (address - 0x2000) data).map fun l => { m with ppu_registers := l }
  else if address < 0x4000 then
    (arrSet 2048 m.vram (address - 0x2000) data).map fun l => { m with vram := l }
  else if address < 0x4018 then
    (arrSet 24 m.apu_registers (address - 0x4000) data).map fun l => { m with apu_registers := l }
  else if address < 0x4020 then none
  else if address < 0x6000 then
    (if address - 0x4020 < m.chr_rom.length then
      some { m with chr_rom := m.chr_rom.set (address - 0x4020) data } else none)
  else if address < 0x8000 then
    (if address - 0x6000 < m.ext_ram.length then
      some { m with ext_ram := m.ext_ram.set (address - 0x6000) data } else none)
  else if address < 0x10000 then
    (if address - 0x8000 < m.prg_rom.length then
      some { m with prg_rom := m.prg_rom.set (address - 0x8000) data } else none)
  else none


/-- register selector (`enum CPUReg`) -/
inductive CPUReg where
  | A | X | Y | SP
deriving DecidableEq, Repr

/-- `enum OpcodeType` -/
inductive OpcodeType where
  | LDA | LDX | LDY | STA | STX | STY
  | TAX | TAY | TXA | TYA
  | TSX | TXS | PHA | PHP | PLA | PLP
  | AND | ORA | EOR | BIT
  | ADC | SBC | CMP | CPX | CPY | INC | INX | INY | DEC | DEX | DEY
  | ASL | LSR | ROL | ROR
  | JMP | JSR
  | BCC | BCS | BNE | BEQ | BPL | BMI | BVC | BVS
  | CLC | CLD | CLI | CLV | SEC | SED | SEI
  | RTS | RTI | BRK
  | NOP | STP
  | UNK
deriving DecidableEq, Repr

/-- `enum AddrMode` -/
inductive AddrMode where
  | ACC | IMM
  | ZPG | ZpgX | ZpgY
  | ABS | AbsX | AbsY
  | IND | IndX | IndY
  | REL | IMPL
deriving DecidableEq, Repr

/-- the CPU (`struct RP2A03<T>` instantiated, as in the repository, at
`T = u8`); the register array `cpu_reg: [T; 4]` is laid out as four
fields. -/
structure RP2A03 where
  a : Nat
  x : Nat
  y : Nat
  sp : Nat
  cpu_p_reg : StatusRegister
  pc : Nat
  nes_mem : NESMemory

/-- `get_register` -/
def RP2A03.get_register (s : RP2A03) : CPUReg → Nat
  | .A => s.a
  | .X => s.x
  | .Y => s.y
  | .SP => s.sp

/-- `set_register` -/
def RP2A03.set_register (s : RP2A03) : CPUReg → Nat → RP2A03
  | .A, v => { s with a := v }
  | .X, v => { s with x := v }
  | .Y, v => { s with y := v }
  | .SP, v => { s with sp := v }

/-- `reset` : A, X, Y to 0 and SP to 0xFF (P and PC are untouched). -/
def RP2A03.reset (s : RP2A03) : RP2A03 :=
  { s with a := 0, x := 0, y := 0, sp := 0xFF }

/-- `read` forwards to the bus. -/
def RP2A03.read (s : RP2A03) (address : Nat) : Option Nat :=
  s.nes_mem.mem_read address

/-- `write` forwards to the bus. -/
def RP2A03.write (s : RP2A03) (address data : Nat) : Option RP2A03 :=
  (s.nes_mem.mem_write address data).map fun m => { s with nes_mem := m }

/-- `push_stack` : write to `0x0100.wrapping_add(SP)`, then `SP -= 1`
(u8 wrap). -/
def RP2A03.push_stack (s : RP2A03) (data : Nat) : Option RP2A03 := do
  let sp := s.get_register .SP
  let address := add16 0x0100 sp
  let s ← s.write address data
  some (s.set_register .SP (sub8 sp 1))

/-- `pop_stack` : `SP += 1` (u8 wrap), but the address is computed from the
value of SP read BEFORE the increment, so the byte returned is the one
stored at `0x0100 + old SP`. -/
def RP2A03.pop_stack (s : RP2A03) : Option (Nat × RP2A03) := do
  let sp := s.get_register .SP
  let s := s.set_register .SP (add8 sp 1)
  let address := add16 0x0100 sp
  let v ← s.read address
  some (v, s)

/-- `fetch_instruction` -/
def RP2A03.fetch_instruction (s : RP2A03) : Option Nat :=
  s.read s.pc

/-- `decode_instruction` : the full 256-entry opcode table of `cpu.rs`. -/
def decode_instruction (op_code : Nat) : OpcodeType × AddrMode :=
  match op_code with
  | 0x00 => (.BRK, .IMPL)
  | 0x01 => (.ORA, .IndX)
  | 0x05 => (.ORA, .ZPG)
  | 0x06 => (.ASL, .ZPG)
  | 0x08 => (.PHP, .IMPL)
  | 0x09 => (.ORA, .IMM)
  | 0x0A => (.ASL, .ACC)
  | 0x0D => (.ORA, .ABS)
  | 0x0E => (.ASL, .ABS)
  | 0x10 => (.BPL, .REL)
  | 0x11 => (.ORA, .IndY)
  | 0x15 => (.ORA, .ZpgX)
  | 0x16 => (.ASL, .ZpgX)
  | 0x18 => (.CLC, .IMPL)
  | 0x19 => (.ORA, .AbsY)
  | 0x1D => (.ORA, .AbsX)
  | 0x1E => (.ASL, .AbsX)
  | 0x20 => (.JSR, .ABS)
  | 0x21 => (.AND, .IndX)
  | 0x24 => (.BIT, .ZPG)
  | 0x25 => (.AND, .ZPG)
  | 0x26 => (.ROL, .ZPG)
  | 0x28 => (.PLP, .IMPL)
  | 0x29 => (.AND, .IMM)
  | 0x2A => (.ROL, .ACC)
  | 0x2C => (.BIT, .ABS)
  | 0x2D => (.AND, .ABS)
  | 0x2E => (.ROL, .ABS)
  | 0x30 => (.BMI, .REL)
  | 0x31 => (.AND, .IndY)
  | 0x35 => (.AND, .ZpgX)
  | 0x36 => (.ROL, .ZpgX)
  | 0x38 => (.SEC, .IMPL)
  | 0x39 => (.AND, .AbsY)
  | 0x3D => (.AND, .AbsX)
  | 0x3E => (.ROL, .AbsX)
  | 0x40 => (.RTI, .IMPL)
  | 0x41 => (.EOR, .IndX)
  | 0x45 => (.EOR, .ZPG)
  | 0x46 => (.LSR, .ZPG)
  | 0x48 => (.PHA, .IMPL)
  | 0x49 => (.EOR, .IMM)
  | 0x4A => (.LSR, .ACC)
  | 0x4C => (.JMP, .ABS)
  | 0x4D => (.EOR, .ABS)
  | 0x4E => (.LSR, .ABS)
  | 0x50 => (.BVC, .REL)
  | 0x51 => (.EOR, .IndY)
  | 0x55 => (.EOR, .ZpgX)
  | 0x56 => (.LSR, .ZpgX)
  | 0x58 => (.CLI, .IMPL)
  | 0x59 => (.EOR, .AbsY)
  | 0x5D => (.EOR, .AbsX)
  | 0x5E => (.LSR, .AbsX)
  | 0x60 => (.RTS, .IMPL)
  | 0x61 => (.ADC, .IndX)
  | 0x65 => (.ADC, .ZPG)
  | 0x66 => (.ROR, .ZPG)
  | 0x68 => (.PLA, .IMPL)
  | 0x69 => (.ADC, .IMM)
  | 0x6A => (.ROR, .ACC)
  | 0x6C => (.JMP, .IND)
  | 0x6D => (.ADC, .ABS)
  | 0x6E => (.ROR, .ABS)
  | 0x70 => (.BVS, .REL)
  | 0x71 => (.ADC, .IndY)
  | 0x75 => (.ADC, .ZpgX)
  | 0x76 => (.ROR, .ZpgX)
  | 0x78 => (.SEI, .IMPL)
  | 0x79 => (.ADC, .AbsY)
  | 0x7D => (.ADC, .AbsX)
  | 0x7E => (.ROR, .AbsX)
  | 0x81 => (.STA, .IndX)
  | 0x84 => (.STY, .ZPG)
  | 0x85 => (.STA, .ZPG)
  | 0x86 => (.STX, .ZPG)
  | 0x88 => (.DEY, .IMPL)
  | 0x8A => (.TXA, .IMPL)
  | 0x8C => (.STY, .ABS)
  | 0x8D => (.STA, .ABS)
  | 0x8E => (.STX, .ABS)
  | 0x90 => (.BCC, .REL)
  | 0x91 => (.STA, .IndY)
  | 0x94 => (.STY, .ZpgX)
  | 0x95 => (.STA, .ZpgX)
  | 0x96 => (.STX, .ZpgY)
  | 0x98 => (.TYA, .IMPL)
  | 0x99 => (.STA, .AbsY)
  | 0x9A => (.TXS, .IMPL)
  | 0x9D => (.STA, .AbsX)
  | 0xA0 => (.LDY, .IMM)
  | 0xA1 => (.LDA, .IndX)
  | 0xA2 => (.LDX, .IMM)
  | 0xA4 => (.LDY, .ZPG)
  | 0xA5 => (.LDA, .ZPG)
  | 0xA6 => (.LDX, .ZPG)
  | 0xA8 => (.TAY, .IMPL)
  | 0xA9 => (.LDA, .IMM)
  | 0xAA => (.TAX, .IMPL)
  | 0xAC => (.LDY, .ABS)
  | 0xAD => (.LDA, .ABS)
  | 0xAE => (.LDX, .ABS)
  | 0xB0 => (.BCS, .REL)
  | 0xB1 => (.LDA, .IndY)
  | 0xB4 => (.LDY, .ZpgX)
  | 0xB5 => (.LDA, .ZpgX)
  | 0xB6 => (.LDX, .ZpgY)
  | 0xB8 => (.CLV, .IMPL)
  | 0xB9 => (.LDA, .AbsY)
  | 0xBA => (.TSX, .IMPL)
  | 0xBC => (.LDY, .AbsX)
  | 0xBD => (.LDA, .AbsX)
  | 0xBE => (.LDX, .AbsY)
  | 0xC0 => (.CPY, .IMM)
  | 0xC1 => (.CMP, .IndX)
  | 0xC4 => (.CPY, .ZPG)
  | 0xC5 => (.CMP, .ZPG)
  | 0xC6 => (.DEC, .ZPG)
  | 0xC8 => (.INY, .IMPL)
  | 0xC9 => (.CMP, .IMM)
  | 0xCA => (.DEX, .IMPL)
  | 0xCC => (.CPY, .ABS)
  | 0xCD => (.CMP, .ABS)
  | 0xCE => (.DEC, .ABS)
  | 0xD0 => (.BNE, .REL)
  | 0xD1 => (.CMP, .IndY)
  | 0xD5 => (.CMP, .ZpgX)
  | 0xD6 => (.DEC, .ZpgX)
  | 0xD8 => (.CLD, .IMPL)
  | 0xD9 => (.CMP, .AbsY)
  | 0xDD => (.CMP, .AbsX)
  | 0xDE => (.DEC, .AbsX)
  | 0xE0 => (.CPX, .IMM)
  | 0xE1 => (.SBC, .IndX)
  | 0xE4 => (.CPX, .ZPG)
  | 0xE5 => (.SBC, .ZPG)
  | 0xE6 => (.INC, .ZPG)
  | 0xE8 => (.INX, .IMPL)
  | 0xE9 => (.SBC, .IMM)
  | 0xEC => (.CPX, .ABS)
  | 0xED => (.SBC, .ABS)
  | 0xEE => (.INC, .ABS)
  | 0xF0 => (.BEQ, .REL)
  | 0xF1 => (.SBC, .IndY)
  | 0xF5 => (.SBC, .ZpgX)
  | 0xF6 => (.INC, .ZpgX)
  | 0xF8 => (.SED, .IMPL)
  | 0xF9 => (.SBC, .AbsY)
  | 0xFD => (.SBC, .AbsX)
  | 0xFE => (.INC, .AbsX)
  | 0x1A | 0x3A | 0x5A | 0x7A | 0xDA | 0xEA | 0xFA => (.NOP, .IMPL)
  | 0x80 | 0x82 | 0x89 | 0xC2 | 0xE2 => (.NOP, .IMM)
  | 0x04 | 0x44 | 0x64 => (.NOP, .ZPG)
  | 0x14 | 0x34 | 0x54 | 0x74 | 0xD4 | 0xF4 => (.NOP, .ZpgX)
  | 0x0C => (.NOP, .ABS)
  | 0x1C | 0x3C | 0x5C | 0x7C | 0xDC | 0xFC => (.NOP, .AbsX)
  | 0x02 | 0x12 | 0x22 | 0x32 | 0x42 | 0x52 | 0x62 | 0x72 | 0x92 | 0xB2 | 0xD2 | 0xF2 => (.STP, .IMPL)
  | _ => (.UNK, .IMPL)

/-- `read_operand` : resolves the operand for an addressing mode, advancing
PC exactly as the source does; the outer `Option` is a panicking memory
access, the inner one is the `Option<T>` of the source (`none` for implied). -/
def RP2A03.read_operand (s : RP2A03) (addr_mode : AddrMode) :
    Option (RP2A03 × Option Nat) :=
  match addr_mode with
  | .ACC =>
    let s := { s with pc := add16 s.pc 1 }
    some (s, some (s.get_register .A))
  | .IMM => do
    let s := { s with pc := add16 s.pc 1 }
    let v ← s.read s.pc
    some (s, some v)
  | .ABS => do
    let s := { s with pc := add16 s.pc 1 }
    let v ← s.read s.pc
    some (s, some v)
  | .ZPG => do
    let s := { s with pc := add16 s.pc 1 }
    let v ← s.read s.pc
    some (s, some v)
  | .ZpgX => do
    let s := { s with pc := add16 s.pc 1 }
    let address ← s.read (add16 s.pc (s.get_register .X))
    let v ← s.read address
    some (s, some v)
  | .ZpgY => do
    let s := { s with pc := add16 s.pc 1 }
    let address ← s.read (add16 s.pc (s.get_register .Y))
    let v ← s.read address
    some (s, some v)
  | .AbsX => do
    let s := { s with pc := add16 s.pc 1 }
    let address ← s.read (add16 s.pc (s.get_register .X))
    let v ← s.read address
    some (s, some v)
  | .AbsY => do
    let s := { s with pc := add16 s.pc 1 }
    let address ← s.read (add16 s.pc (s.get_register .Y))
    let v ← s.read address
    some (s, some v)
  | .IND => do
    let s := { s with pc := add16 s.pc 1 }
    let indirect_address ← s.read s.pc
    let v ← s.read indirect_address
    some (s, some v)
  | .IndX => do
    let s := { s with pc := add16 s.pc 1 }
    let base_address ← s.read (add16 s.pc (s.get_register .X))
    let indirect_address ← s.read base_address
    let v ← s.read indirect_address
    some (s, some v)
  | .IndY => do
    let s := { s with pc := add16 s.pc 1 }
    let base_address ← s.read (add16 s.pc (s.get_register .Y))
    let indirect_address ← s.read base_address
    let v ← s.read indirect_address
    some (s, some v)
  | .REL => do
    let s := { s with pc := add16 s.pc 1 }
    let offset ← s.read s.pc
    let target_address := add16 s.pc offset
    let v ← s.read target_address
    some (s, some v)
  | .IMPL => some (s, none)

/-- helper shared by the JMP / JSR / taken-branch arms: when an operand was
resolved, build the 16-bit target `val | (val_second << 8)` and load PC;
the jump flag is raised either way. -/
def RP2A03.jump_on (s : RP2A03) (operand operand_second : Option Nat) :
    RP2A03 × Bool :=
  match operand with
  | some value =>
    let val := value
    let val_second := operand_second.getD 0x00
    ({ s with pc := val ||| (val_second <<< 8) }, true)
  | none => (s, true)

/-- `execute_instruction` : faithful arm-by-arm translation, including the
quirks of the source (AND/ORA/EOR/LDA update no flags; ADC feeds only
`A + carry` to the carry helper and to the N/Z update; CPY compares the X
register; INC/DEC and the shifts write their result to A; INY writes to X;
RTI/RTS rebuild the return address with a u8 shift whose amount is masked
to 0; RTI/RTS/BRK do not raise the jump flag, so PC is incremented once
more afterwards). -/
def RP2A03.execute_instruction (s : RP2A03) (opcode : OpcodeType)
    (addressing : AddrMode) : Option RP2A03 := do
  let (s, operand) ← s.read_operand addressing
  let (s, operand_second) ←
    match addressing with
    | .IND | .IndX | .IndY | .ABS | .AbsX | .AbsY => s.read_operand addressing
    | _ => some (s, (none : Option Nat))
  let (s, jmp_flg) ←
    match opcode with
    | .NOP => some (s, false)
    | .AND =>
      match operand with
      | some operand_value =>
        some (s.set_register .A (s.get_register .A &&& operand_value), false)
      | none => some (s, false)
    | .ORA =>
      match operand with
      | some operand_value =>
        some (s.set_register .A (s.get_register .A ||| operand_value), false)
      | none => some (s, false)
    | .EOR =>
      match operand with
      | some operand_value =>
        some (s.set_register .A (s.get_register .A ^^^ operand_value), false)
      | none => some (s, false)
    | .BIT =>
      match operand with
      | some operand_value =>
        let a := s.get_register .A
        let p := s.cpu_p_reg
        let p := if a &&& operand_value = 0 then p.set_status_flg ZERO_FLG
                 else p.cls_status_flg ZERO_FLG
        let p := if operand_value &&& BIN_BIT_7 ≠ 0 then p.set_status_flg NEGATIVE_FLG
                 else p.cls_status_flg NEGATIVE_FLG
        let p := if operand_value &&& BIN_BIT_6 ≠ 0 then p.set_status_flg OVERFLOW_FLG
                 else p.cls_status_flg OVERFLOW_FLG
        some ({ s with cpu_p_reg := p }, false)
      | none => some (s, false)
    | .ADC =>
      match operand with
      | some value =>
        let val := value
        let a := s.get_register .A
        let carry := if s.cpu_p_reg.get_status_flg CARRY_FLG then 0x01 else 0x00
        let result := add8 a carry
        let (p, ret) := s.cpu_p_reg.c_flg_update_add result val
        let s := s.set_register .A ret
        let p := p.nzv_flg_update result
        some ({ s with cpu_p_reg := p }, false)
      | none => some (s, false)
    | .SBC =>
      match operand with
      | some value =>
        let val := value
        let a := s.get_register .A
        let carry := if s.cpu_p_reg.get_status_flg CARRY_FLG then 0x01 else 0x00
        let result := sub8 (sub8 a val) carry
        let s := s.set_register .A result
        some ({ s with cpu_p_reg := s.cpu_p_reg.nzv_flg_update result }, false)
      | none => some (s, false)
    | .CMP =>
      match operand with
      | some operand_value =>
        let result := sub8 (s.get_register .A) operand_value
        some ({ s with cpu_p_reg := s.cpu_p_reg.nzv_flg_update result }, false)
      | none => some (s, false)
    | .CPX =>
      match operand with
      | some operand_value =>
        let result := sub8 (s.get_register .X) operand_value
        some ({ s with cpu_p_reg := s.cpu_p_reg.nzv_flg_update result }, false)
      | none => some (s, false)
    | .CPY =>
      match operand with
      | some operand_value =>
        let result := sub8 (s.get_register .X) operand_value
        some ({ s with cpu_p_reg := s.cpu_p_reg.nzv_flg_update result }, false)
      | none => some (s, false)
    | .INC =>
      match operand with
      | some operand_value =>
        let (p, ret) := s.cpu_p_reg.c_flg_update_add operand_value 1
        let s := s.set_register .A ret
        some ({ s with cpu_p_reg := p.nzv_flg_update ret }, false)
      | none => some (s, false)
    | .INX =>
      let (p, ret) := s.cpu_p_reg.c_flg_update_add (s.get_register .X) 1
      let s := s.set_register .X ret
      some ({ s with cpu_p_reg := p.nzv_flg_update ret }, false)
    | .INY =>
      let (p, ret) := s.cpu_p_reg.c_flg_update_add (s.get_register .Y) 1
      let s := s.set_register .X ret
      some ({ s with cpu_p_reg := p.nzv_flg_update ret }, false)
    | .DEC =>
      match operand with
      | some operand_value =>
        let result := sub8 operand_value 0x01
        let s := s.set_register .A result
        some ({ s with cpu_p_reg := s.cpu_p_reg.nzv_flg_update result }, false)
      | none => some (s, false)
    | .DEX =>
      let result := sub8 (s.get_register .X) 0x01
      let s := s.set_register .X result
      some ({ s with cpu_p_reg := s.cpu_p_reg.nzv_flg_update result }, false)
    | .DEY =>
      let result := sub8 (s.get_register .Y) 0x01
      let s := s.set_register .Y result
      some ({ s with cpu_p_reg := s.cpu_p_reg.nzv_flg_update result }, false)
    | .ASL =>
      let (p, ret) := s.cpu_p_reg.c_flg_update_l_shit (s.get_register .A)
      let ret := ret &&& 0xFE
      let p := p.nzv_flg_update ret
      some ({ s.set_register .A ret with cpu_p_reg := p }, false)
    | .LSR =>
      let (p, ret) := s.cpu_p_reg.c_flg_update_r_shit (s.get_register .A)
      let ret := ret &&& 0x7F
      let p := p.nzv_flg_update ret
      some ({ s.set_register .A ret with cpu_p_reg := p }, false)
    | .ROL =>
      let (p, ret) := s.cpu_p_reg.c_flg_update_l_shit (s.get_register .A)
      let carry := if p.get_status_flg CARRY_FLG then BIN_BIT_0 else 0
      let ret := ret ||| carry
      let p := p.nzv_flg_update ret
      some ({ s.set_register .A ret with cpu_p_reg := p }, false)
    | .ROR =>
      let (p, ret) := s.cpu_p_reg.c_flg_update_r_shit (s.get_register .A)
      let carry := if p.get_status_flg CARRY_FLG then BIN_BIT_7 else 0
      let ret := ret ||| carry
      let p := p.nzv_flg_update ret
      some ({ s.set_register .A ret with cpu_p_reg := p }, false)
    | .LDA =>
      match operand with
      | some value => some (s.set_register .A value, false)
      | none => some (s, false)
    | .LDX =>
      match operand with
      | some value => some (s.set_register .X value, false)
      | none => some (s, false)
    | .LDY =>
      match operand with
      | some value => some (s.set_register .Y value, false)
      | none => some (s, false)
    | .STA => do
      let s ← s.write s.pc (s.get_register .A)
      some (s, false)
    | .STX => do
      let s ← s.write s.pc (s.get_register .X)
      some (s, false)
    | .STY => do
      let s ← s.write s.pc (s.get_register .Y)
      some (s, false)
    | .TAX => some (s.set_register .X (s.get_register .A), false)
    | .TAY => some (s.set_register .Y (s.get_register .A), false)
    | .TXA => some (s.set_register .A (s.get_register .X), false)
    | .TYA => some (s.set_register .A (s.get_register .Y), false)
    | .TSX => some (s.set_register .X (s.get_register .SP), false)
    | .TXS => some (s.set_register .SP (s.get_register .X), false)
    | .PHA => do
      let s ← s.push_stack (s.get_register .A)
      some (s, false)
    | .PHP => do
      let s ← s.push_stack s.cpu_p_reg.get_status_flg_all
      some (s, false)
    | .PLA => do
      let (value, s) ← s.pop_stack
      let s := s.set_register .A value
      some ({ s with cpu_p_reg := s.cpu_p_reg.nzv_flg_update value }, false)
    | .PLP => do
      let (value, s) ← s.pop_stack
      some ({ s with cpu_p_reg := s.cpu_p_reg.set_status_flg_all value }, false)
    | .CLC => some ({ s with cpu_p_reg := s.cpu_p_reg.cls_status_flg CARRY_FLG }, false)
    | .CLD => some ({ s with cpu_p_reg := s.cpu_p_reg.cls_status_flg DECIMAL_MODE_FLG }, false)
    | .CLI => some ({ s with cpu_p_reg := s.cpu_p_reg.cls_status_flg INTERRUPT_DISABLE_FLG }, false)
    | .CLV => some ({ s with cpu_p_reg := s.cpu_p_reg.cls_status_flg OVERFLOW_FLG }, false)
    | .SEC => some ({ s with cpu_p_reg := s.cpu_p_reg.set_status_flg CARRY_FLG }, false)
    | .SED => some ({ s with cpu_p_reg := s.cpu_p_reg.set_status_flg DECIMAL_MODE_FLG }, false)
    | .SEI => some ({ s with cpu_p_reg := s.cpu_p_reg.set_status_flg INTERRUPT_DISABLE_FLG }, false)
    | .JMP => some (s.jump_on operand operand_second)
    | .JSR => do
      let s := { s with pc := add16 s.pc 1 }
      let return_addr := s.pc
      let s ← s.push_stack (return_addr &&& 0x00FF)
      let s ← s.push_stack ((return_addr &&& 0xFF00) >>> 0x0008)
      some (s.jump_on operand operand_second)
    | .BCC =>
      if s.cpu_p_reg.get_status_flg CARRY_FLG ≠ true then
        some (s.jump_on operand operand_second)
      else some (s, false)
    | .BCS =>
      if s.cpu_p_reg.get_status_flg CARRY_FLG ≠ false then
        some (s.jump_on operand operand_second)
      else some (s, false)
    | .BEQ =>
      if s.cpu_p_reg.get_status_flg ZERO_FLG ≠ false then
        some (s.jump_on operand operand_second)
      else some (s, false)
    | .BNE =>
      if s.cpu_p_reg.get_status_flg ZERO_FLG ≠ true then
        some (s.jump_on operand operand_second)
      else some (s, false)
    | .BVC =>
      if s.cpu_p_reg.get_status_flg OVERFLOW_FLG ≠ true then
        some (s.jump_on operand operand_second)
      else some (s, false)
    | .BVS =>
      if s.cpu_p_reg.get_status_flg OVERFLOW_FLG ≠ false then
        some (s.jump_on operand operand_second)
      else some (s, false)
    | .BPL =>
      if s.cpu_p_reg.get_status_flg NEGATIVE_FLG ≠ true then
        some (s.jump_on operand operand_second)
      else some (s, false)
    | .BMI =>
      if s.cpu_p_reg.get_status_flg NEGATIVE_FLG ≠ false then
        some (s.jump_on operand operand_second)
      else some (s, false)
    | .RTI => do
      let (status, s) ← s.pop_stack
      let s := { s with cpu_p_reg := s.cpu_p_reg.set_status_flg_all status }
      let (lo, s) ← s.pop_stack
      let (hi, s) ← s.pop_stack
      let return_addr := lo ||| shl8 hi 8
      some ({ s with pc := return_addr }, false)
    | .RTS => do
      let (lo, s) ← s.pop_stack
      let (hi, s) ← s.pop_stack
      let return_addr := lo ||| shl8 hi 8
      let s := { s with pc := return_addr }
      some ({ s with pc := add16 s.pc 1 }, false)
    | .BRK =>
      if s.cpu_p_reg.get_status_flg BREAK_COMMAND_FLG ≠ true then do
        let s := { s with pc := add16 s.pc 1 }
        let s := { s with cpu_p_reg := s.cpu_p_reg.set_status_flg BREAK_COMMAND_FLG }
        let s ← s.push_stack (s.pc &&& 0x00FF)
        let s ← s.push_stack ((s.pc &&& 0xFF00) >>> 0x0008)
        let s ← s.push_stack s.cpu_p_reg.get_status_flg_all
        let s := { s with cpu_p_reg := s.cpu_p_reg.set_status_flg BREAK_COMMAND_FLG }
        let _ ← s.read ADDR_VEC_TBL_IRQ
        let hi ← s.read (ADDR_VEC_TBL_IRQ + 1)
        some ({ s with pc := shl8 hi 8 }, false)
      else some (s, false)
    | .STP => some (s, false)
    | .UNK => some (s, false)
  if jmp_flg ≠ true then some { s with pc := add16 s.pc 1 } else some s

/-- `cpu_proc` : one fetch / decode / execute round. -/
def RP2A03.cpu_proc (s : RP2A03) : Option RP2A03 := do
  let op_code ← s.fetch_instruction
  let (opcode, addressing) := decode_instruction op_code
  s.execute_instruction opcode addressing

/-- iterate `cpu_proc` -/
def RP2A03.run : Nat → RP2A03 → Option RP2A03
  | 0, s => some s
  | n + 1, s => do RP2A03.run n (← s.cpu_proc)

/-- a freshly constructed CPU as built by `cpu_reset` / `cpu_test_func`
(registers zero, status `R` only, PC at `ADDR_PRG_ROM`, empty cartridge),
after `reset()` and with a program image extended onto `prg_rom`. -/
def RP2A03.boot (prg : List Nat) : RP2A03 :=
  let s : RP2A03 :=
    { a := 0, x := 0, y := 0, sp := 0, cpu_p_reg := StatusRegister.new,
      pc := ADDR_PRG_ROM, nes_mem := NESMemory.new }
  let s := s.reset
  { s with nes_mem := { s.nes_mem with prg_rom := prg } }

end Cpu

namespace Apu

/-- `LENGTH_COUNTER_TBL` (32 entries). -/
def LENGTH_COUNTER_TBL : List Nat :=
  [0x05, 0x7F, 0x0A, 0x01, 0x14, 0x02, 0x28, 0x03,
   0x50, 0x04, 0x1E, 0x05, 0x07, 0x06, 0x0D, 0x07,
   0x06, 0x08, 0x0C, 0x09, 0x18, 0x0A, 0x30, 0x0B,
   0x60, 0x0C, 0x24, 0x0D, 0x08, 0x0E, 0x10, 0x0F]

/-- `NOISE_TBL` : the 16 u16 period entries (the source converts each entry
to f32 only at the point of use). -/
def NOISE_TBL : List Nat :=
  [0x0002, 0x0004, 0x0008, 0x0010, 0x0020,
   0x0030, 0x0040, 0x0050, 0x0065, 0x007F,
   0x00BE, 0x00FE, 0x017D, 0x01FC, 0x03F9, 0x07F2]

/-- `struct Envelope` -/
structure Envelope where
  rate : Nat
  enabled : Bool
  loop_flag : Bool
  counter : Nat
  division_period : Nat
deriving DecidableEq, Repr

/-- `Envelope::new` : counter starts at 0x0F, divider at `rate + 1`. -/
def Envelope.new (rate : Nat) (enabled loop_flag : Bool) : Envelope :=
  ⟨rate, enabled, loop_flag, 0x0F, add8 rate 1⟩

/-- `Envelope::reset` -/
def Envelope.reset (e : Envelope) : Envelope :=
  { e with counter := 0x0F, division_period := add8 e.rate 1 }

/-- `Envelope::tick` -/
def Envelope.tick (e : Envelope) : Envelope :=
  let e := { e with division_period := sub8 e.division_period 1 }
  if e.division_period ≠ 0 then e
  else
    let e :=
      if e.counter ≠ 0 then { e with counter := e.counter - 1 }
      else if e.loop_flag then e.reset else e
    { e with division_period := add8 e.rate 1 }

/-- `struct LengthCounter` -/
structure LengthCounter where
  enabled : Bool
  count : Nat
  counter : Nat
deriving DecidableEq, Repr

/-- `LengthCounter::new` -/
def LengthCounter.new (enabled : Bool) (counter : Nat) : LengthCounter :=
  ⟨enabled, counter, counter⟩

/-- `LengthCounter::tick` -/
def LengthCounter.tick (l : LengthCounter) : LengthCounter :=
  if !l.enabled then l
  else if l.counter > 0 then { l with counter := l.counter - 1 }
  else l

/-- `LengthCounter::mute` -/
def LengthCounter.mute (l : LengthCounter) : Bool :=
  l.enabled && l.counter == 0

/-- `LengthCounter::reset` -/
def LengthCounter.reset (l : LengthCounter) : LengthCounter :=
  { l with counter := l.count }

/-- `struct Sweep` -/
structure Sweep where
  org_freq : Nat
  frequency : Nat
  change_amount : Nat
  direction : Nat
  timer_count : Nat
  enabled : Bool
  counter : Nat
deriving DecidableEq, Repr

/-- `Sweep::new` -/
def Sweep.new (frequency change_amount direction timer_count : Nat)
    (enabled : Bool) : Sweep :=
  ⟨frequency, frequency, change_amount, direction, timer_count, enabled, 0⟩

/-- `Sweep::tick` -/
def Sweep.tick (w : Sweep) : Sweep :=
  if !w.enabled then w
  else if w.change_amount = 0 then w
  else
    let w := { w with counter := add8 w.counter 1 }
    if w.counter < add8 w.timer_count 1 then w
    else
      let w := { w with counter := 0 }
      let w :=
        if w.direction = 0 then
          { w with frequency := add16 w.frequency (w.frequency >>> w.change_amount) }
        else
          { w with frequency := w.frequency - (w.frequency >>> w.change_amount) }
      if w.frequency < 8 ∨ w.frequency ≥ 0x7FF then { w with frequency := 0 } else w

/-- `Sweep::reset` -/
def Sweep.reset (w : Sweep) : Sweep :=
  { w with frequency := w.org_freq, counter := 0 }

/-- `struct Ch1Register` ($4000–$4003) -/
structure Ch1Register where
  volume : Nat
  envelope_flag : Bool
  key_off_counter_flag : Bool
  duty : Nat
  sweep_change_amount : Nat
  sweep_direction : Nat
  sweep_timer_count : Nat
  sweep_enabled : Bool
  frequency : Nat
  key_off_count : Nat
deriving DecidableEq, Repr

/-- `Ch1Register::new` -/
def Ch1Register.new : Ch1Register :=
  ⟨0, false, false, 0, 0, 0, 0, false, 0, 0⟩

/-- `Ch1Register::write` (panics outside $4000–$4003). -/
def Ch1Register.write (r : Ch1Register) (addr value : Nat) : Option Ch1Register :=
  if addr = 0x4000 then
    some { r with volume := value &&& 0x0F,
                  envelope_flag := (value &&& 0x10) == 0,
                  key_off_counter_flag := (value &&& 0x20) == 0,
                  duty := (value &&& 0xC0) >>> 6 }
  else if addr = 0x4001 then
    some { r with sweep_change_amount := value &&& 0x07,
                  sweep_direction := (value &&& 0x08) >>> 3,
                  sweep_timer_count := (value &&& 0x70) >>> 4,
                  sweep_enabled := (value &&& 0x80) != 0 }
  else if addr = 0x4002 then
    some { r with frequency := (r.frequency &&& 0x0700) ||| value }
  else if addr = 0x4003 then
    some { r with frequency := (r.frequency &&& 0x00FF) ||| ((value &&& 0x07) <<< 8),
                  key_off_count := (value &&& 0xF8) >>> 3 }
  else none

/-- `struct Ch2Register` ($4004–$4007) -/
structure Ch2Register where
  volume : Nat
  envelope_flag : Bool
  key_off_counter_flag : Bool
  duty : Nat
  sweep_change_amount : Nat
  sweep_direction : Nat
  sweep_timer_count : Nat
  sweep_enabled : Bool
  frequency : Nat
  key_off_count : Nat
deriving DecidableEq, Repr

/-- `Ch2Register::new` -/
def Ch2Register.new : Ch2Register :=
  ⟨0, false, false, 0, 0, 0, 0, false, 0, 0⟩

/-- `Ch2Register::write` (panics outside $4004–$4007). -/
def Ch2Register.write (r : Ch2Register) (addr value : Nat) : Option Ch2Register :=
  if addr = 0x4004 then
    some { r with volume := value &&& 0x0F,
                  envelope_flag := (value &&& 0x10) == 0,
                  key_off_counter_flag := (value &&& 0x20) == 0,
                  duty := (value &&& 0xC0) >>> 6 }
  else if addr = 0x4005 then
    some { r with sweep_change_amount := value &&& 0x07,
                  sweep_direction := (value &&& 0x08) >>> 3,
                  sweep_timer_count := (value &&& 0x70) >>> 4,
                  sweep_enabled := (value &&& 0x80) != 0 }
  else if addr = 0x4006 then
    some { r with frequency := (r.frequency &&& 0x0700) ||| value }
  else if addr = 0x4007 then
    some { r with frequency := (r.frequency &&& 0x00FF) ||| ((value &&& 0x07) <<< 8),
                  key_off_count := (value &&& 0xF8) >>> 3 }
  else none

/-- `struct Ch3Register` ($4008–$400B) -/
structure Ch3Register where
  length : Nat
  key_off_counter_flag : Bool
  frequency : Nat
  key_off_count : Nat
deriving DecidableEq, Repr

/-- `Ch3Register::new` -/
def Ch3Register.new : Ch3Register := ⟨0, false, 0, 0⟩

/-- `Ch3Register::write` ($4009 is accepted and ignored; panics outside
$4008–$400B). -/
def Ch3Register.write (r : Ch3Register) (addr value : Nat) : Option Ch3Register :=
  if addr = 0x4008 then
    some { r with length := value &&& 0x7F,
                  key_off_counter_flag := (value &&& 0x80) == 0 }
  else if addr = 0x4009 then some r
  else if addr = 0x400A then
    some { r with frequency := (r.frequency &&& 0x0700) ||| value }
  else if addr = 0x400B then
    some { r with frequency := (r.frequency &&& 0x00FF) ||| ((value &&& 0x07) <<< 8),
                  key_off_count := (value &&& 0xF8) >>> 3 }
  else none

/-- `enum NoiseKind` -/
inductive NoiseKind where
  | Long | Short
deriving DecidableEq, Repr

/-- `struct Ch4Register` ($400C, $400E, $400F; note that $400D has no arm
in `Ch4Register::write` and therefore panics). -/
structure Ch4Register where
  volume : Nat
  envelope_flag : Bool
  key_off_counter_flag : Bool
  frequency : Nat
  kind : NoiseKind
  key_off_count : Nat
deriving DecidableEq, Repr

/-- `Ch4Register::new` -/
def Ch4Register.new : Ch4Register := ⟨0, false, false, 0, .Long, 0⟩

/-- `Ch4Register::write` -/
def Ch4Register.write (r : Ch4Register) (addr value : Nat) : Option Ch4Register :=
  if addr = 0x400C then
    some { r with volume := value &&& 0x0F,
                  envelope_flag := (value &&& 0x10) == 0,
                  key_off_counter_flag := (value &&& 0x20) == 0 }
  else if addr = 0x400E then
    some { r with frequency := value &&& 0x0F,
                  kind := if value &&& 0x80 = 0 then NoiseKind.Long else NoiseKind.Short }
  else if addr = 0x400F then
    some { r with key_off_count := (value &&& 0xF8) >>> 3 }
  else none

/-- `struct SquareNote` -/
structure SquareNote where
  duty : Nat
deriving DecidableEq, Repr

/-- `struct TriangleNote` -/
structure TriangleNote where
  frequency : Nat
deriving DecidableEq, Repr

/-- `struct NoiseNote` : the f32 fields `hz` and `volume` are represented
by their exact preimages, the u16 table period (`hz` is
`CPU_CLOCK / period`) and the 4-bit volume (`volume` is `v / 15.0`); the
source computes them from these by an injective map, so nothing is lost. -/
structure NoiseNote where
  hz_period : Nat
  is_long : Bool
  volume : Nat
deriving DecidableEq, Repr

/-- `enum SquareEvent` -/
inductive SquareEvent where
  | Note (n : SquareNote)
  | Enable (b : Bool)
  | Envelope (e : Envelope)
  | EnvelopeTick
  | LengthCounter (l : LengthCounter)
  | LengthCounterTick
  | Sweep (w : Sweep)
  | SweepTick
  | Reset
deriving DecidableEq, Repr

/-- `enum TriangleEvent` -/
inductive TriangleEvent where
  | Note (n : TriangleNote)
  | Enable (b : Bool)
  | LengthCounter (l : LengthCounter)
  | LengthCounterTick
  | Reset
deriving DecidableEq, Repr

/-- `enum NoiseEvent` -/
inductive NoiseEvent where
  | Note (n : NoiseNote)
  | Enable (b : Bool)
  | Envelope (e : Envelope)
  | EnvelopeTick
  | LengthCounter (l : LengthCounter)
  | LengthCounterTick
  | Reset
deriving DecidableEq, Repr

/-- the APU status register (`bitflags StatusRegister`), kept as a raw
byte. -/
structure StatusRegister where
  bits : Nat
deriving DecidableEq, Repr

/-- `ENABLE_FRAME_IRQ` bit -/
def ENABLE_FRAME_IRQ : Nat := 0x40

/-- `StatusRegister::new` -/
def StatusRegister.new : StatusRegister := ⟨0x00⟩

/-- bitflags `insert` -/
def StatusRegister.insert (s : StatusRegister) (flag : Nat) : StatusRegister :=
  ⟨s.bits ||| flag⟩

/-- bitflags `remove` (`bits &= !flag`). -/
def StatusRegister.remove (s : StatusRegister) (flag : Nat) : StatusRegister :=
  ⟨s.bits &&& (flag ^^^ 0xFF)⟩

/-- bitflags `contains` -/
def StatusRegister.contains (s : StatusRegister) (flag : Nat) : Bool :=
  s.bits &&& flag == flag

/-- the frame-counter register (`bitflags FrameCounter`), kept as a raw
byte. -/
structure FrameCounter where
  bits : Nat
deriving DecidableEq, Repr

/-- `SEQUENCER_MODE` bit -/
def SEQUENCER_MODE : Nat := 0x80

/-- `FrameCounter::new` -/
def FrameCounter.new : FrameCounter := ⟨0xC0⟩

/-- `FrameCounter::mode` : 5 when the sequencer-mode bit is set, else 4. -/
def FrameCounter.mode (f : FrameCounter) : Nat :=
  if f.bits &&& SEQUENCER_MODE == SEQUENCER_MODE then 5 else 4

/-- `FrameCounter::update` -/
def FrameCounter.update (_ : FrameCounter) (data : Nat) : FrameCounter := ⟨data⟩

/-- `struct APU` : the audio devices and sender halves are not state; each
`send` is modelled as an element appended to the list of messages a call
returns. -/
structure APU where
  ch1_register : Ch1Register
  ch2_register : Ch2Register
  ch3_register : Ch3Register
  ch4_register : Ch4Register
  frame_counter : FrameCounter
  status : StatusRegister
  cycles : Nat
  counter : Nat
deriving DecidableEq, Repr

/-- `APU::new` (audio plumbing aside). -/
def APU.new : APU :=
  ⟨Ch1Register.new, Ch2Register.new, Ch3Register.new, Ch4Register.new,
   FrameCounter.new, StatusRegister.new, 0, 0⟩

/-- `APU::write1ch` : update the square-1 register file, then send Note,
Envelope, LengthCounter, Sweep, and Reset exactly when `addr == 0x4003`. -/
def APU.write1ch (s : APU) (addr value : Nat) : Option (APU × List SquareEvent) := do
  let r ← s.ch1_register.write addr value
  let s := { s with ch1_register := r }
  let cnt ← LENGTH_COUNTER_TBL.get? r.key_off_count
  let msgs : List SquareEvent :=
    [.Note ⟨r.duty⟩,
     .Envelope (Envelope.new r.volume r.envelope_flag (!r.key_off_counter_flag)),
     .LengthCounter (LengthCounter.new r.key_off_counter_flag cnt),
     .Sweep (Sweep.new r.frequency r.sweep_change_amount r.sweep_direction
       r.sweep_timer_count r.sweep_enabled)]
  let msgs := msgs ++ (if addr = 0x4003 then [.Reset] else [])
  some (s, msgs)

/-- `APU::write2ch` : square 2, Reset exactly when `addr == 0x4007`. -/
def APU.write2ch (s : APU) (addr value : Nat) : Option (APU × List SquareEvent) := do
  let r ← s.ch2_register.write addr value
  let s := { s with ch2_register := r }
  let cnt ← LENGTH_COUNTER_TBL.get? r.key_off_count
  let msgs : List SquareEvent :=
    [.Note ⟨r.duty⟩,
     .Envelope (Envelope.new r.volume r.envelope_flag (!r.key_off_counter_flag)),
     .LengthCounter (LengthCounter.new r.key_off_counter_flag cnt),
     .Sweep (Sweep.new r.frequency r.sweep_change_amount r.sweep_direction
       r.sweep_timer_count r.sweep_enabled)]
  let msgs := msgs ++ (if addr = 0x4007 then [.Reset] else [])
  some (s, msgs)

/-- `APU::write3ch` : triangle; NOTE (faithful to the source) the Note
message is built from `self.ch2_register.frequency`, not from the triangle
register file that was just written. -/
def APU.write3ch (s : APU) (addr value : Nat) : Option (APU × List TriangleEvent) := do
  let r ← s.ch3_register.write addr value
  let s := { s with ch3_register := r }
  let cnt ← LENGTH_COUNTER_TBL.get? r.key_off_count
  let msgs : List TriangleEvent :=
    [.Note ⟨s.ch2_register.frequency⟩,
     .LengthCounter (LengthCounter.new r.key_off_counter_flag cnt)]
  let msgs := msgs ++ (if addr = 0x400B then [.Reset] else [])
  some (s, msgs)

/-- `APU::write4ch` : noise, Reset exactly when `addr == 0x400F`. -/
def APU.write4ch (s : APU) (addr value : Nat) : Option (APU × List NoiseEvent) := do
  let r ← s.ch4_register.write addr value
  let s := { s with ch4_register := r }
  let period ← NOISE_TBL.get? r.frequency
  let is_long := match r.kind with
    | .Long => true
    | .Short => false
  let cnt ← LENGTH_COUNTER_TBL.get? r.key_off_count
  let msgs : List NoiseEvent :=
    [.Note ⟨period, is_long, r.volume⟩,
     .Envelope (Envelope.new r.volume r.envelope_flag (!r.key_off_counter_flag)),
     .LengthCounter (LengthCounter.new r.key_off_counter_flag cnt)]
  let msgs := msgs ++ (if addr = 0x400F then [.Reset] else [])
  some (s, msgs)

/-- `APU::read_status` : return the status byte and clear the frame-IRQ
bit as a side effect. -/
def APU.read_status (s : APU) : Nat × APU :=
  let res := s.status.bits
  (res, { s with status := s.status.remove ENABLE_FRAME_IRQ })

/-- `APU::irq` -/
def APU.irq (s : APU) : Bool :=
  s.status.contains ENABLE_FRAME_IRQ

/-- `APU::write_frame_counter` -/
def APU.write_frame_counter (s : APU) (value : Nat) : APU :=
  { s with frame_counter := s.frame_counter.update value, cycles := 0, counter := 0 }

/-- one tick command of the frame sequencer; a `lengthCounterTick` stands
for the LengthCounterTick broadcast to all four channels, a `sweepTick`
for the SweepTick sent to both squares, an `envelopeTick` for the
EnvelopeTick sent to squares and noise. -/
inductive FrameSignal where
  | lengthCounterTick
  | sweepTick
  | envelopeTick
deriving DecidableEq, Repr

/-- `APU::tick` : accumulate CPU cycles; when the 7457-cycle boundary is
crossed, advance the step counter and dispatch per the mode-4 / mode-5
tables, setting the frame-IRQ status bit only in mode 4 at step 4. -/
def APU.tick (s : APU) (cycles : Nat) : APU × List FrameSignal :=
  let s := { s with cycles := s.cycles + cycles }
  let interval := 7457
  if s.cycles ≥ interval then
    let s := { s with cycles := s.cycles - interval }
    let s := { s with counter := s.counter + 1 }
    if s.frame_counter.mode = 4 then
      let msgs : List FrameSignal :=
        if s.counter = 2 ∨ s.counter = 4 then [.lengthCounterTick, .sweepTick] else []
      let s :=
        if s.counter = 4 then
          { s with counter := 0, status := s.status.insert ENABLE_FRAME_IRQ }
        else s
      (s, msgs ++ [.envelopeTick])
    else
      let msgs : List FrameSignal :=
        if s.counter = 1 ∨ s.counter = 3 then [.lengthCounterTick, .sweepTick] else []
      let msgs := msgs ++ (if s.counter ≤ 4 then [.envelopeTick] else [])
      let s := if s.counter = 5 then { s with counter := 0 } else s
      (s, msgs)
  else (s, [])

/-- `struct NoiseRandom` -/
structure NoiseRandom where
  bit : Nat
  value : Nat
deriving DecidableEq, Repr

/-- `NoiseRandom::long` -/
def NoiseRandom.long : NoiseRandom := ⟨1, 1⟩

/-- `NoiseRandom::short` -/
def NoiseRandom.short : NoiseRandom := ⟨6, 1⟩

/-- the shift-register update inside `NoiseRandom::next` : feedback is
`bit0 XOR bit(tap)`, the register shifts right, and the feedback enters at
bit 14. -/
def NoiseRandom.nextValue (bit v : Nat) : Nat :=
  let b := (v &&& 0x01) ^^^ ((v >>> bit) &&& 0x01)
  ((v >>> 1) &&& 0x3FFF) ||| (b <<< 14)

/-- `NoiseRandom::next` : update the register, output bit 0. -/
def NoiseRandom.next (r : NoiseRandom) : Bool × NoiseRandom :=
  let value := NoiseRandom.nextValue r.bit r.value
  (value &&& 0x01 != 0, { r with value := value })

/-- `n`-fold iteration of the register update. -/
def noiseIter (bit : Nat) : Nat → Nat → Nat
  | 0, v => v
  | n + 1, v => noiseIter bit n (NoiseRandom.nextValue bit v)

/-- the output stream from the reset seed 1: `noiseOutput bit n` is bit 0
of the register after `n + 1` calls of `next`, i.e. the `(n+1)`-st output
sample. -/
def noiseOutput (bit n : Nat) : Nat :=
  noiseIter bit (n + 1) 1 &&& 0x01

end Apu

open Cpu Apu

/-- concrete machine used for C1: `LDA #$FF; CLC; ADC #$02` from the reset
state (the spec-predicted result is A = $01 with C set). -/
def c1_machine : RP2A03 := RP2A03.boot [0xA9, 0xFF, 0x18, 0x69, 0x02]

/-- concrete machine used for the V-flag half of C1:
`LDA #$50; CLC; ADC #$50` (signed overflow: $50 + $50 = $A0). -/
def c1_machine_v : RP2A03 := RP2A03.boot [0xA9, 0x50, 0x18, 0x69, 0x50]

/-- concrete machine used for C5: the spec scenario program
`ORA #$A0; EOR #$BA; AND #$44` starting from A = $0B. -/
def c5_machine : RP2A03 :=
  { RP2A03.boot [0x09, 0xA0, 0x49, 0xBA, 0x29, 0x44] with a := 0x0B }

/-- concrete machine used for C7: a single `PLP` ($28) from reset. -/
def c7_machine : RP2A03 := RP2A03.boot [0x28]

/-- concrete machine used for the RTI half of C7: a single `RTI` ($40). -/
def c7_machine_rti : RP2A03 := RP2A03.boot [0x40]

/-- concrete APU used for the C6 witness: mode 4 (frame-counter byte $00),
step counter about to reach 4. -/
def c6_machine : APU := { APU.new with frame_counter := ⟨0x00⟩, counter := 3 }

/-- C1 (code bug): after `LDA #$FF; CLC; ADC #$02` the code leaves
A = $00 — not $01 = ($FF+$02) mod 256 — because `c_flg_update_add`
returns 0x00 instead of the low byte whenever there is a carry; and after
`LDA #$50; CLC; ADC #$50` the V flag is still clear although the addition
overflows in two's complement, because `nzv_flg_update` never touches V.
The C flag itself is set correctly. -/
theorem adc_code_bug_eval :
    ((c1_machine.run 3).map fun s =>
      (s.a, s.cpu_p_reg.get_status_flg CARRY_FLG)) = some (0x00, true) ∧
    (0xFF + 0x02) % 256 = 0x01 ∧
    (StatusRegister.new.c_flg_update_add 0xFF 0x02).2 = 0x00 ∧
    ((c1_machine_v.run 3).map fun s =>
      (s.a, s.cpu_p_reg.get_status_flg OVERFLOW_FLG)) = some (0xA0, false) := by
  refine ⟨by decide, by decide, by decide, by decide⟩

/-- C2 (code bug): from the reset state (SP = $FF, zeroed RAM),
`push_stack($42)` followed by `pop_stack()` returns $00, not $42: push
stores $42 at $01FF and leaves SP = $FE, but pop computes its address from
SP before the increment and therefore reads $01FE. The byte $42 is indeed
sitting at $01FF afterwards. -/
theorem push_pop_code_bug_eval :
    (((RP2A03.boot []).push_stack 0x42).bind RP2A03.pop_stack).map
      (fun p => (p.1, p.2.sp)) = some (0x00, 0xFF) ∧
    ((RP2A03.boot []).push_stack 0x42).bind
      (fun s => s.nes_mem.mem_read 0x01FF) = some 0x42 := by
  refine ⟨by decide, by decide⟩

/-- C7 (code bug): executing `PLP` from the reset state pops $00 from the
zeroed stack page and `set_status_flg_all` copies the whole byte into P,
so P becomes $00 and bit 5 (R) reads 0 — refuting the invariant that R is
always 1.  `RTI` uses the same wholesale copy and likewise ends with
R = 0. -/
theorem r_flag_code_bug_eval :
    ((c7_machine.run 1).map fun s =>
      (s.cpu_p_reg.p_reg, s.cpu_p_reg.get_status_flg R_FLG)) = some (0x00, false) ∧
    ((c7_machine_rti.run 1).map fun s =>
      s.cpu_p_reg.get_status_flg R_FLG) = some false := by
  refine ⟨by decide, by decide⟩

/-- C4 (code bug): writing $FF to the triangle period-low register $400A
stores frequency $FF into the triangle register file, but the Note message
broadcast by `write3ch` carries frequency 0 — the frequency of the square-2
register file (`ch2_register`), not the written channel's own parameters.
The rest of the burst matches the claim: Note then LengthCounter, and no
Reset since $400A is not the fourth register. -/
theorem write3ch_code_bug_eval :
    ((APU.new.write3ch 0x400A 0xFF).map fun p =>
      (p.1.ch3_register.frequency, p.2)) =
      some (0xFF, [TriangleEvent.Note ⟨0x00⟩,
        TriangleEvent.LengthCounter (LengthCounter.new false 0x05)]) ∧
    (0x00 : Nat) ≠ 0xFF := by
  refine ⟨by decide, by decide⟩

/-- C5 (counterexample): with P = $20 from reset and A = $0B, running
`ORA #$A0; EOR #$BA; AND #$44` does end with A = $00, but the Z flag is
NOT set (nor is any flag updated by the three instructions): the claim
that the run ends with A = $00, Z set and N clear is false on the code. -/
theorem logic_flags_counterexample :
    ¬(((c5_machine.run 3).map fun s =>
        (s.a, s.cpu_p_reg.get_status_flg ZERO_FLG,
         s.cpu_p_reg.get_status_flg NEGATIVE_FLG)) = some (0x00, true, false)) ∧
    ((c5_machine.run 3).map fun s =>
      (s.a, s.cpu_p_reg.get_status_flg ZERO_FLG,
       s.cpu_p_reg.get_status_flg NEGATIVE_FLG)) = some (0x00, false, false) := by
  refine ⟨by decide, by decide⟩

/-- C3 (counterexample): make the byte backing $4015 on the bus equal $40
(frame-IRQ bit set).  A first `mem_read` of $4015 returns $40 with bit 6
set; `mem_read` is a pure function of an unchanged `NESMemory`, so the
immediately following second read is the very same expression and again
returns $40 — not $00 = $40 with bit 6 cleared as the claim requires.  The
bus never consults the APU status object (`NESMemory` holds no reference
to the `APU`), so no side effect can occur. -/
theorem bus_4015_counterexample :
    ((NESMemory.new.mem_write 0x4015 0x40).bind
      fun m => m.mem_read 0x4015) = some 0x40 ∧
    ((NESMemory.new.mem_write 0x4015 0x40).bind
      fun m => m.mem_read 0x4015) ≠ some (0x40 &&& 0xBF) ∧
    0x40 &&& 0x40 ≠ 0 := by
  refine ⟨by decide, by decide, by decide⟩

/-- C9 (confirmed): internal-RAM mirroring.  Writing v at any x in
[$0000,$07FF] and reading x + $0800·k for k in {1,2,3} returns v, and a
write anywhere in the mirror region $0800–$1FFF stores to address mod
$0800, so reading that base address returns the written byte. -/
theorem ram_mirroring (m : NESMemory) (x y v k : Nat)
    (hx : x ≤ 0x07FF) (hk : k = 1 ∨ k = 2 ∨ k = 3)
    (hy : 0x0800 ≤ y ∧ y ≤ 0x1FFF) :
    (∃ m', m.mem_write x v = some m' ∧ m'.mem_read (x + 0x0800 * k) = some v) ∧
    (∃ m', m.mem_write y v = some m' ∧ m'.mem_read (y % 0x0800) = some v) := by
  obtain ⟨hy1, hy2⟩ := hy
  constructor
  · refine ⟨{ m with wram := fun j => if j = x then v else m.wram j }, ?_, ?_⟩
    · unfold NESMemory.mem_write arrSet
      rw [if_pos (show x < 0x0800 by omega), if_pos (show x < 2048 by omega)]
      rfl
    · unfold NESMemory.mem_read arrGet
      have h1 : ¬ (x + 0x0800 * k < 0x0800) := by rcases hk with h | h | h <;> omega
      have h2 : x + 0x0800 * k < 0x2000 := by rcases hk with h | h | h <;> omega
      have h3 : (x + 0x0800 * k) % 0x0800 = x := by
        rcases hk with h | h | h <;> subst h <;> omega
      rw [if_neg h1, if_pos h2, h3, if_pos (show x < 2048 by omega)]
      simp
  · refine ⟨{ m with wram := fun j => if j = y % 0x0800 then v else m.wram j }, ?_, ?_⟩
    · unfold NESMemory.mem_write arrSet
      rw [if_neg (show ¬ (y < 0x0800) by omega), if_pos (show y < 0x2000 by omega),
        if_pos (show y % 0x0800 < 2048 by omega)]
      rfl
    · unfold NESMemory.mem_read arrGet
      rw [if_pos (show y % 0x0800 < 0x0800 by omega),
        if_pos (show y % 0x0800 < 2048 by omega)]
      simp

/-- C9 witness at x = 5, y = $0805, v = $AB, k = 2. -/
theorem ram_mirroring_witness :
    ((5 : Nat) ≤ 0x07FF ∧ ((2 : Nat) = 1 ∨ (2 : Nat) = 2 ∨ (2 : Nat) = 3) ∧
      ((0x0800 : Nat) ≤ 0x0805 ∧ (0x0805 : Nat) ≤ 0x1FFF)) ∧
    ((∃ m', NESMemory.new.mem_write 5 0xAB = some m' ∧
        m'.mem_read (5 + 0x0800 * 2) = some 0xAB) ∧
     (∃ m', NESMemory.new.mem_write 0x0805 0xAB = some m' ∧
        m'.mem_read (0x0805 % 0x0800) = some 0xAB)) :=
  ⟨⟨by decide, by decide, by decide, by decide⟩,
   ram_mirroring NESMemory.new 5 0x0805 0xAB 2 (by decide) (by decide)
     ⟨by decide, by decide⟩⟩

/-- C10 (confirmed): for every address in $0000–$1FFF, $2000–$2007 or
$4000–$4017 the bus read and write always hit a fixed-size backing array
in bounds — independent of any cartridge ROM/RAM being loaded — and a
write of v followed by a read of the same address returns v. -/
theorem bus_fixed_ranges_safe (m : NESMemory) (addr v : Nat)
    (h : addr ≤ 0x1FFF ∨ (0x2000 ≤ addr ∧ addr ≤ 0x2007) ∨
      (0x4000 ≤ addr ∧ addr ≤ 0x4017)) :
    (m.mem_read addr).isSome ∧
    ∃ m', m.mem_write addr v = some m' ∧ m'.mem_read addr = some v := by
  rcases h with h | ⟨h1, h2⟩ | ⟨h1, h2⟩
  · by_cases hlo : addr < 0x0800
    · constructor
      · unfold NESMemory.mem_read arrGet
        rw [if_pos hlo, if_pos (show addr < 2048 by omega)]
        rfl
      · refine ⟨{ m with wram := fun j => if j = addr then v else m.wram j }, ?_, ?_⟩
        · unfold NESMemory.mem_write arrSet
          rw [if_pos hlo, if_pos (show addr < 2048 by omega)]
          rfl
        · unfold NESMemory.mem_read arrGet
          rw [if_pos hlo, if_pos (show addr < 2048 by omega)]
          simp
    · constructor
      · unfold NESMemory.mem_read arrGet
        rw [if_neg hlo, if_pos (show addr < 0x2000 by omega),
          if_pos (show addr % 0x0800 < 2048 by omega)]
        rfl
      · refine ⟨{ m with wram := fun j => if j = addr % 0x0800 then v else m.wram j },
          ?_, ?_⟩
        · unfold NESMemory.mem_write arrSet
          rw [if_neg hlo, if_pos (show addr < 0x2000 by omega),
            if_pos (show addr % 0x0800 < 2048 by omega)]
          rfl
        · unfold NESMemory.mem_read arrGet
          rw [if_neg hlo, if_pos (show addr < 0x2000 by omega),
            if_pos (show addr % 0x0800 < 2048 by omega)]
          simp
  · constructor
    · unfold NESMemory.mem_read arrGet
      rw [if_neg (show ¬ (addr < 0x0800) by omega), if_neg (show ¬ (addr < 0x2000) by omega),
        if_pos (show addr < 0x2008 by omega), if_pos (show addr - 0x2000 < 8 by omega)]
      rfl
    · refine ⟨{ m with ppu_registers := fun j => if j = addr - 0x2000 then v
        else m.ppu_registers j }, ?_, ?_⟩
      · unfold NESMemory.mem_write arrSet
        rw [if_neg (show ¬ (addr < 0x0800) by omega), if_neg (show ¬ (addr < 0x2000) by omega),
          if_pos (show addr < 0x2008 by omega), if_pos (show addr - 0x2000 < 8 by omega)]
        rfl
      · unfold NESMemory.mem_read arrGet
        rw [if_neg (show ¬ (addr < 0x0800) by omega), if_neg (show ¬ (addr < 0x2000) by omega),
          if_pos (show addr < 0x2008 by omega), if_pos (show addr - 0x2000 < 8 by omega)]
        simp
  · constructor
    · unfold NESMemory.mem_read arrGet
      rw [if_neg (show ¬ (addr < 0x0800) by omega), if_neg (show ¬ (addr < 0x2000) by omega),
        if_neg (show ¬ (addr < 0x2008) by omega), if_neg (show ¬ (addr < 0x4000) by omega),
        if_pos (show addr < 0x4018 by omega), if_pos (show addr - 0x4000 < 24 by omega)]
      rfl
    · refine ⟨{ m with apu_registers := fun j => if j = addr - 0x4000 then v
        else m.apu_registers j }, ?_, ?_⟩
      · unfold NESMemory.mem_write arrSet
        rw [if_neg (show ¬ (addr < 0x0800) by omega), if_neg (show ¬ (addr < 0x2000) by omega),
          if_neg (show ¬ (addr < 0x2008) by omega), if_neg (show ¬ (addr < 0x4000) by omega),
          if_pos (show addr < 0x4018 by omega), if_pos (show addr - 0x4000 < 24 by omega)]
        rfl
      · unfold NESMemory.mem_read arrGet
        rw [if_neg (show ¬ (addr < 0x0800) by omega), if_neg (show ¬ (addr < 0x2000) by omega),
          if_neg (show ¬ (addr < 0x2008) by omega), if_neg (show ¬ (addr < 0x4000) by omega),
          if_pos (show addr < 0x4018 by omega), if_pos (show addr - 0x4000 < 24 by omega)]
        simp

/-- C10 witness at addr = $4015, v = 7. -/
theorem bus_fixed_ranges_safe_witness :
    ((0x4015 : Nat) ≤ 0x1FFF ∨ ((0x2000 : Nat) ≤ 0x4015 ∧ (0x4015 : Nat) ≤ 0x2007) ∨
      ((0x4000 : Nat) ≤ 0x4015 ∧ (0x4015 : Nat) ≤ 0x4017)) ∧
    ((NESMemory.new.mem_read 0x4015).isSome ∧
     ∃ m', NESMemory.new.mem_write 0x4015 7 = some m' ∧
       m'.mem_read 0x4015 = some 7) :=
  ⟨Or.inr (Or.inr ⟨by decide, by decide⟩),
   bus_fixed_ranges_safe NESMemory.new 0x4015 7
     (Or.inr (Or.inr ⟨by decide, by decide⟩))⟩

/-- C3 (amended): calling `APU::read_status` returns the current status
byte and clears the frame-IRQ bit (bit 6) as a side effect: when the
frame-IRQ bit is set, a first call returns a byte with bit 6 set and an
immediately following second call returns the same byte with bit 6
cleared (and with bit 6 then reading 0). -/
theorem read_status_clears_frame_irq (s : APU) (h : s.status.bits &&& 0x40 ≠ 0) :
    (s.read_status.1 &&& 0x40 ≠ 0) ∧
    s.read_status.1 = s.status.bits ∧
    s.read_status.2.read_status.1 = s.read_status.1 &&& 0xBF ∧
    s.read_status.2.read_status.1 &&& 0x40 = 0 := by
  refine ⟨h, rfl, rfl, ?_⟩
  show s.status.bits &&& (0x40 ^^^ 0xFF) &&& 0x40 = 0
  rw [Nat.land_assoc, show (((0x40 : Nat) ^^^ 0xFF) &&& 0x40) = 0 from rfl]
  simp

/-- C3 witness at an APU whose status byte is $5F. -/
theorem read_status_clears_frame_irq_witness :
    (({ APU.new with status := ⟨0x5F⟩ } : APU).status.bits &&& 0x40 ≠ 0) ∧
    ((({ APU.new with status := ⟨0x5F⟩ } : APU).read_status.1 &&& 0x40 ≠ 0) ∧
     ({ APU.new with status := ⟨0x5F⟩ } : APU).read_status.1 =
       ({ APU.new with status := ⟨0x5F⟩ } : APU).status.bits ∧
     ({ APU.new with status := ⟨0x5F⟩ } : APU).read_status.2.read_status.1 =
       ({ APU.new with status := ⟨0x5F⟩ } : APU).read_status.1 &&& 0xBF ∧
     ({ APU.new with status := ⟨0x5F⟩ } : APU).read_status.2.read_status.1 &&& 0x40 = 0) :=
  ⟨by decide, read_status_clears_frame_irq { APU.new with status := ⟨0x5F⟩ } (by decide)⟩

/-- C5 (amended): ORA, EOR and AND with an immediate operand set A to the
bitwise result but leave the whole status register (in particular N and Z)
unchanged; concretely, running `ORA #$A0; EOR #$BA; AND #$44` from A = $0B
with P = $20 ends with A = $00 and P still $20, i.e. Z clear and N
clear. -/
theorem logic_ops_amended :
    (∀ (s : RP2A03) (v : Nat), s.nes_mem.mem_read (add16 s.pc 1) = some v →
      (s.execute_instruction .ORA .IMM =
        some { s with a := s.a ||| v, pc := add16 (add16 s.pc 1) 1 } ∧
       s.execute_instruction .EOR .IMM =
        some { s with a := s.a ^^^ v, pc := add16 (add16 s.pc 1) 1 } ∧
       s.execute_instruction .AND .IMM =
        some { s with a := s.a &&& v, pc := add16 (add16 s.pc 1) 1 })) ∧
    ((c5_machine.run 3).map fun s => (s.a, s.cpu_p_reg.p_reg)) = some (0x00, 0x20) := by
  constructor
  · intro s v hv
    refine ⟨?_, ?_, ?_⟩ <;>
      simp [RP2A03.execute_instruction, RP2A03.read_operand, RP2A03.read,
        RP2A03.set_register, RP2A03.get_register, hv, Bind.bind, Option.bind]
  · decide

/-- C5 amended-claim witness: ORA #$A0 on the concrete boot machine. -/
theorem logic_ops_amended_witness :
    ((RP2A03.boot [0x09, 0xA0]).nes_mem.mem_read
      (add16 (RP2A03.boot [0x09, 0xA0]).pc 1) = some 0xA0) ∧
    ((RP2A03.boot [0x09, 0xA0]).execute_instruction .ORA .IMM =
      some { RP2A03.boot [0x09, 0xA0] with
        a := (RP2A03.boot [0x09, 0xA0]).a ||| 0xA0,
        pc := add16 (add16 (RP2A03.boot [0x09, 0xA0]).pc 1) 1 }) :=
  ⟨by decide, ((logic_ops_amended.1 (RP2A03.boot [0x09, 0xA0]) 0xA0 (by decide)).1)⟩

/-- C6 (confirmed): one boundary-crossing call of the frame sequencer.
With k the step index reached by the call: in mode 4, length-counter and
sweep ticks are emitted exactly when k is 2 or 4, an envelope tick is
always emitted, and exactly at k = 4 the frame-IRQ status bit is inserted
and the step index resets to 0; in mode 5, length and sweep ticks are
emitted exactly at k = 1 or 3, an envelope tick exactly when k ≤ 4, the
step index resets exactly at k = 5, and the status register is never
touched. -/
theorem frame_sequencer_modes (s : APU) (c : Nat) (h : 7457 ≤ s.cycles + c) :
    (s.frame_counter.mode = 4 →
      ((s.tick c).2 =
        (if s.counter + 1 = 2 ∨ s.counter + 1 = 4 then
          [FrameSignal.lengthCounterTick, FrameSignal.sweepTick, FrameSignal.envelopeTick]
         else [FrameSignal.envelopeTick]) ∧
       (s.counter + 1 = 4 →
         (s.tick c).1.counter = 0 ∧
         (s.tick c).1.status = s.status.insert ENABLE_FRAME_IRQ) ∧
       (s.counter + 1 ≠ 4 →
         (s.tick c).1.counter = s.counter + 1 ∧ (s.tick c).1.status = s.status))) ∧
    (s.frame_counter.mode = 5 →
      ((s.tick c).2 =
        (if s.counter + 1 = 1 ∨ s.counter + 1 = 3 then
          [FrameSignal.lengthCounterTick, FrameSignal.sweepTick] else []) ++
        (if s.counter + 1 ≤ 4 then [FrameSignal.envelopeTick] else []) ∧
       (s.tick c).1.status = s.status ∧
       (s.counter + 1 = 5 → (s.tick c).1.counter = 0) ∧
       (s.counter + 1 ≠ 5 → (s.tick c).1.counter = s.counter + 1))) := by
  have hmode : s.frame_counter.mode = 4 ∨ s.frame_counter.mode = 5 := by
    unfold FrameCounter.mode
    split <;> simp
  simp only [APU.tick]
  rw [if_pos (show ({ s with cycles := s.cycles + c } : APU).cycles ≥ 7457 from h)]
  rcases hmode with h4 | h5
  · refine ⟨fun _ => ?_, fun h5x => absurd (h4.symm.trans h5x) (by decide)⟩
    rw [if_pos h4]
    by_cases hc2 : s.counter + 1 = 2 <;> by_cases hc4 : s.counter + 1 = 4 <;>
      simp [hc2, hc4]
  · refine ⟨fun h4x => absurd (h5.symm.trans h4x) (by decide), fun _ => ?_⟩
    rw [if_neg (by rw [h5]; decide)]
    by_cases hc1 : s.counter + 1 = 1 <;> by_cases hc3 : s.counter + 1 = 3 <;>
      by_cases hc5 : s.counter + 1 = 5 <;> by_cases hc4 : s.counter + 1 ≤ 4 <;>
      simp [hc1, hc3, hc5, hc4]

/-- C6 witness: mode-4 APU at step counter 3, ticked across the boundary
with 7457 cycles (k = 4: length + sweep + envelope, IRQ bit set, counter
reset). -/
theorem frame_sequencer_modes_witness :
    (7457 ≤ c6_machine.cycles + 7457) ∧
    ((c6_machine.frame_counter.mode = 4 →
      ((c6_machine.tick 7457).2 =
        (if c6_machine.counter + 1 = 2 ∨ c6_machine.counter + 1 = 4 then
          [FrameSignal.lengthCounterTick, FrameSignal.sweepTick, FrameSignal.envelopeTick]
         else [FrameSignal.envelopeTick]) ∧
       (c6_machine.counter + 1 = 4 →
         (c6_machine.tick 7457).1.counter = 0 ∧
         (c6_machine.tick 7457).1.status = c6_machine.status.insert ENABLE_FRAME_IRQ) ∧
       (c6_machine.counter + 1 ≠ 4 →
         (c6_machine.tick 7457).1.counter = c6_machine.counter + 1 ∧
         (c6_machine.tick 7457).1.status = c6_machine.status))) ∧
     (c6_machine.frame_counter.mode = 5 →
      ((c6_machine.tick 7457).2 =
        (if c6_machine.counter + 1 = 1 ∨ c6_machine.counter + 1 = 3 then
          [FrameSignal.lengthCounterTick, FrameSignal.sweepTick] else []) ++
        (if c6_machine.counter + 1 ≤ 4 then [FrameSignal.envelopeTick] else []) ∧
       (c6_machine.tick 7457).1.status = c6_machine.status ∧
       (c6_machine.counter + 1 = 5 → (c6_machine.tick 7457).1.counter = 0) ∧
       (c6_machine.counter + 1 ≠ 5 →
         (c6_machine.tick 7457).1.counter = c6_machine.counter + 1)))) :=
  ⟨by decide, frame_sequencer_modes c6_machine 7457 (by decide)⟩

/-- composing iterations of the noise shift register. -/
theorem noiseIter_add (bit m n v : Nat) :
    noiseIter bit (m + n) v = noiseIter bit m (noiseIter bit n v) := by
  induction n generalizing v with
  | zero => rfl
  | succ k ih => rw [Nat.add_succ]; exact ih (NoiseRandom.nextValue bit v)

/-- register state after 256 steps of the long-mode LFSR. -/
theorem noise_chunk_1 : noiseIter 1 256 1 = 18432 := by decide

/-- register state after 512 steps of the long-mode LFSR. -/
theorem noise_chunk_2 : noiseIter 1 512 1 = 8320 := by
  rw [show (512 : Nat) = 256 + 256 from by norm_num, noiseIter_add, noise_chunk_1]
  decide

/-- register state after 768 steps of the long-mode LFSR. -/
theorem noise_chunk_3 : noiseIter 1 768 1 = 4680 := by
  rw [show (768 : Nat) = 256 + 512 from by norm_num, noiseIter_add, noise_chunk_2]
  decide

/-- register state after 1024 steps of the long-mode LFSR. -/
theorem noise_chunk_4 : noiseIter 1 1024 1 = 26624 := by
  rw [show (1024 : Nat) = 256 + 768 from by norm_num, noiseIter_add, noise_chunk_3]
  decide

/-- register state after 1280 steps of the long-mode LFSR. -/
theorem noise_chunk_5 : noiseIter 1 1280 1 = 12928 := by
  rw [show (1280 : Nat) = 256 + 1024 from by norm_num, noiseIter_add, noise_chunk_4]
  decide

/-- register state after 1536 steps of the long-mode LFSR. -/
theorem noise_chunk_6 : noiseIter 1 1536 1 = 6760 := by
  rw [show (1536 : Nat) = 256 + 1280 from by norm_num, noiseIter_add, noise_chunk_5]
  decide

/-- register state after 1792 steps of the long-mode LFSR. -/
theorem noise_chunk_7 : noiseIter 1 1792 1 = 27794 := by
  rw [show (1792 : Nat) = 256 + 1536 from by norm_num, noiseIter_add, noise_chunk_6]
  decide

/-- register state after 2048 steps of the long-mode LFSR. -/
theorem noise_chunk_8 : noiseIter 1 2048 1 = 10368 := by
  rw [show (2048 : Nat) = 256 + 1792 from by norm_num, noiseIter_add, noise_chunk_7]
  decide

/-- register state after 2304 steps of the long-mode LFSR. -/
theorem noise_chunk_9 : noiseIter 1 2304 1 = 5832 := by
  rw [show (2304 : Nat) = 256 + 2048 from by norm_num, noiseIter_add, noise_chunk_8]
  decide

/-- register state after 2560 steps of the long-mode LFSR. -/
theorem noise_chunk_10 : noiseIter 1 2560 1 = 27144 := by
  rw [show (2560 : Nat) = 256 + 2304 from by norm_num, noiseIter_add, noise_chunk_9]
  decide

/-- register state after 2816 steps of the long-mode LFSR. -/
theorem noise_chunk_11 : noiseIter 1 2816 1 = 21412 := by
  rw [show (2816 : Nat) = 256 + 2560 from by norm_num, noiseIter_add, noise_chunk_10]
  decide

/-- register state after 3072 steps of the long-mode LFSR. -/
theorem noise_chunk_12 : noiseIter 1 3072 1 = 7400 := by
  rw [show (3072 : Nat) = 256 + 2816 from by norm_num, noiseIter_add, noise_chunk_11]
  decide

/-- register state after 3328 steps of the long-mode LFSR. -/
theorem noise_chunk_13 : noiseIter 1 3328 1 = 28602 := by
  rw [show (3328 : Nat) = 256 + 3072 from by norm_num, noiseIter_add, noise_chunk_12]
  decide

/-- register state after 3584 steps of the long-mode LFSR. -/
theorem noise_chunk_14 : noiseIter 1 3584 1 = 18726 := by
  rw [show (3584 : Nat) = 256 + 3328 from by norm_num, noiseIter_add, noise_chunk_13]
  decide

/-- register state after 3840 steps of the long-mode LFSR. -/
theorem noise_chunk_15 : noiseIter 1 3840 1 = 18433 := by
  rw [show (3840 : Nat) = 256 + 3584 from by norm_num, noiseIter_add, noise_chunk_14]
  decide

/-- register state after 4096 steps of the long-mode LFSR. -/
theorem noise_chunk_16 : noiseIter 1 4096 1 = 26752 := by
  rw [show (4096 : Nat) = 256 + 3840 from by norm_num, noiseIter_add, noise_chunk_15]
  decide

/-- register state after 4352 steps of the long-mode LFSR. -/
theorem noise_chunk_17 : noiseIter 1 4352 1 = 13000 := by
  rw [show (4352 : Nat) = 256 + 4096 from by norm_num, noiseIter_add, noise_chunk_16]
  decide

/-- register state after 4608 steps of the long-mode LFSR. -/
theorem noise_chunk_18 : noiseIter 1 4608 1 = 31304 := by
  rw [show (4608 : Nat) = 256 + 4352 from by norm_num, noiseIter_add, noise_chunk_17]
  decide

/-- register state after 4864 steps of the long-mode LFSR. -/
theorem noise_chunk_19 : noiseIter 1 4864 1 = 23168 := by
  rw [show (4864 : Nat) = 256 + 4608 from by norm_num, noiseIter_add, noise_chunk_18]
  decide

/-- register state after 5120 steps of the long-mode LFSR. -/
theorem noise_chunk_20 : noiseIter 1 5120 1 = 10472 := by
  rw [show (5120 : Nat) = 256 + 4864 from by norm_num, noiseIter_add, noise_chunk_19]
  decide

/-- register state after 5376 steps of the long-mode LFSR. -/
theorem noise_chunk_21 : noiseIter 1 5376 1 = 30458 := by
  rw [show (5376 : Nat) = 256 + 5120 from by norm_num, noiseIter_add, noise_chunk_20]
  decide

/-- register state after 5632 steps of the long-mode LFSR. -/
theorem noise_chunk_22 : noiseIter 1 5632 1 = 17426 := by
  rw [show (5632 : Nat) = 256 + 5376 from by norm_num, noiseIter_add, noise_chunk_21]
  decide

/-- register state after 5888 steps of the long-mode LFSR. -/
theorem noise_chunk_23 : noiseIter 1 5888 1 = 15944 := by
  rw [show (5888 : Nat) = 256 + 5632 from by norm_num, noiseIter_add, noise_chunk_22]
  decide

/-- register state after 6144 steps of the long-mode LFSR. -/
theorem noise_chunk_24 : noiseIter 1 6144 1 = 31936 := by
  rw [show (6144 : Nat) = 256 + 5888 from by norm_num, noiseIter_add, noise_chunk_23]
  decide

/-- register state after 6400 steps of the long-mode LFSR. -/
theorem noise_chunk_25 : noiseIter 1 6400 1 = 14764 := by
  rw [show (6400 : Nat) = 256 + 6144 from by norm_num, noiseIter_add, noise_chunk_24]
  decide

/-- register state after 6656 steps of the long-mode LFSR. -/
theorem noise_chunk_26 : noiseIter 1 6656 1 = 20300 := by
  rw [show (6656 : Nat) = 256 + 6400 from by norm_num, noiseIter_add, noise_chunk_25]
  decide

/-- register state after 6912 steps of the long-mode LFSR. -/
theorem noise_chunk_27 : noiseIter 1 6912 1 = 29522 := by
  rw [show (6912 : Nat) = 256 + 6656 from by norm_num, noiseIter_add, noise_chunk_26]
  decide

/-- register state after 7168 steps of the long-mode LFSR. -/
theorem noise_chunk_28 : noiseIter 1 7168 1 = 9884 := by
  rw [show (7168 : Nat) = 256 + 6912 from by norm_num, noiseIter_add, noise_chunk_27]
  decide

/-- register state after 7424 steps of the long-mode LFSR. -/
theorem noise_chunk_29 : noiseIter 1 7424 1 = 295 := by
  rw [show (7424 : Nat) = 256 + 7168 from by norm_num, noiseIter_add, noise_chunk_28]
  decide

/-- register state after 7680 steps of the long-mode LFSR. -/
theorem noise_chunk_30 : noiseIter 1 7680 1 = 8321 := by
  rw [show (7680 : Nat) = 256 + 7424 from by norm_num, noiseIter_add, noise_chunk_29]
  decide

/-- register state after 7936 steps of the long-mode LFSR. -/
theorem noise_chunk_31 : noiseIter 1 7936 1 = 23112 := by
  rw [show (7936 : Nat) = 256 + 7680 from by norm_num, noiseIter_add, noise_chunk_30]
  decide

/-- register state after 8192 steps of the long-mode LFSR. -/
theorem noise_chunk_32 : noiseIter 1 8192 1 = 18560 := by
  rw [show (8192 : Nat) = 256 + 7936 from by norm_num, noiseIter_add, noise_chunk_31]
  decide

/-- register state after 8448 steps of the long-mode LFSR. -/
theorem noise_chunk_33 : noiseIter 1 8448 1 = 8392 := by
  rw [show (8448 : Nat) = 256 + 8192 from by norm_num, noiseIter_add, noise_chunk_32]
  decide

/-- register state after 8704 steps of the long-mode LFSR. -/
theorem noise_chunk_34 : noiseIter 1 8704 1 = 29288 := by
  rw [show (8704 : Nat) = 256 + 8448 from by norm_num, noiseIter_add, noise_chunk_33]
  decide

/-- register state after 8960 steps of the long-mode LFSR. -/
theorem noise_chunk_35 : noiseIter 1 8960 1 = 24082 := by
  rw [show (8960 : Nat) = 256 + 8704 from by norm_num, noiseIter_add, noise_chunk_34]
  decide

/-- register state after 9216 steps of the long-mode LFSR. -/
theorem noise_chunk_36 : noiseIter 1 9216 1 = 13032 := by
  rw [show (9216 : Nat) = 256 + 8960 from by norm_num, noiseIter_add, noise_chunk_35]
  decide

/-- register state after 9472 steps of the long-mode LFSR. -/
theorem noise_chunk_37 : noiseIter 1 9472 1 = 31322 := by
  rw [show (9472 : Nat) = 256 + 9216 from by norm_num, noiseIter_add, noise_chunk_36]
  decide

/-- register state after 9728 steps of the long-mode LFSR. -/
theorem noise_chunk_38 : noiseIter 1 9728 1 = 17032 := by
  rw [show (9728 : Nat) = 256 + 9472 from by norm_num, noiseIter_add, noise_chunk_37]
  decide

/-- register state after 9984 steps of the long-mode LFSR. -/
theorem noise_chunk_39 : noiseIter 1 9984 1 = 17772 := by
  rw [show (9984 : Nat) = 256 + 9728 from by norm_num, noiseIter_add, noise_chunk_38]
  decide

/-- register state after 10240 steps of the long-mode LFSR. -/
theorem noise_chunk_40 : noiseIter 1 10240 1 = 30432 := by
  rw [show (10240 : Nat) = 256 + 9984 from by norm_num, noiseIter_add, noise_chunk_39]
  decide

/-- register state after 10496 steps of the long-mode LFSR. -/
theorem noise_chunk_41 : noiseIter 1 10496 1 = 15390 := by
  rw [show (10496 : Nat) = 256 + 10240 from by norm_num, noiseIter_add, noise_chunk_40]
  decide

/-- register state after 10752 steps of the long-mode LFSR. -/
theorem noise_chunk_42 : noiseIter 1 10752 1 = 21966 := by
  rw [show (10752 : Nat) = 256 + 10496 from by norm_num, noiseIter_add, noise_chunk_41]
  decide

/-- register state after 11008 steps of the long-mode LFSR. -/
theorem noise_chunk_43 : noiseIter 1 11008 1 = 10171 := by
  rw [show (11008 : Nat) = 256 + 10752 from by norm_num, noiseIter_add, noise_chunk_42]
  decide

/-- register state after 11264 steps of the long-mode LFSR. -/
theorem noise_chunk_44 : noiseIter 1 11264 1 = 8614 := by
  rw [show (11264 : Nat) = 256 + 11008 from by norm_num, noiseIter_add, noise_chunk_43]
  decide

/-- register state after 11520 steps of the long-mode LFSR. -/
theorem noise_chunk_45 : noiseIter 1 11520 1 = 31433 := by
  rw [show (11520 : Nat) = 256 + 11264 from by norm_num, noiseIter_add, noise_chunk_44]
  decide

/-- register state after 11776 steps of the long-mode LFSR. -/
theorem noise_chunk_46 : noiseIter 1 11776 1 = 4808 := by
  rw [show (11776 : Nat) = 256 + 11520 from by norm_num, noiseIter_add, noise_chunk_45]
  decide

/-- register state after 12032 steps of the long-mode LFSR. -/
theorem noise_chunk_47 : noiseIter 1 12032 1 = 26696 := by
  rw [show (12032 : Nat) = 256 + 11776 from by norm_num, noiseIter_add, noise_chunk_46]
  decide

/-- register state after 12288 steps of the long-mode LFSR. -/
theorem noise_chunk_48 : noiseIter 1 12288 1 = 21152 := by
  rw [show (12288 : Nat) = 256 + 12032 from by norm_num, noiseIter_add, noise_chunk_47]
  decide

/-- register state after 12544 steps of the long-mode LFSR. -/
theorem noise_chunk_49 : noiseIter 1 12544 1 = 11386 := by
  rw [show (12544 : Nat) = 256 + 12288 from by norm_num, noiseIter_add, noise_chunk_48]
  decide

/-- register state after 12800 steps of the long-mode LFSR. -/
theorem noise_chunk_50 : noiseIter 1 12800 1 = 27898 := by
  rw [show (12800 : Nat) = 256 + 12544 from by norm_num, noiseIter_add, noise_chunk_49]
  decide

/-- register state after 13056 steps of the long-mode LFSR. -/
theorem noise_chunk_51 : noiseIter 1 13056 1 = 18610 := by
  rw [show (13056 : Nat) = 256 + 12800 from by norm_num, noiseIter_add, noise_chunk_50]
  decide

/-- register state after 13312 steps of the long-mode LFSR. -/
theorem noise_chunk_52 : noiseIter 1 13312 1 = 14546 := by
  rw [show (13312 : Nat) = 256 + 13056 from by norm_num, noiseIter_add, noise_chunk_51]
  decide

/-- register state after 13568 steps of the long-mode LFSR. -/
theorem noise_chunk_53 : noiseIter 1 13568 1 = 2020 := by
  rw [show (13568 : Nat) = 256 + 13312 from by norm_num, noiseIter_add, noise_chunk_52]
  decide

/-- register state after 13824 steps of the long-mode LFSR. -/
theorem noise_chunk_54 : noiseIter 1 13824 1 = 13196 := by
  rw [show (13824 : Nat) = 256 + 13568 from by norm_num, noiseIter_add, noise_chunk_53]
  decide

/-- register state after 14080 steps of the long-mode LFSR. -/
theorem noise_chunk_55 : noiseIter 1 14080 1 = 19198 := by
  rw [show (14080 : Nat) = 256 + 13824 from by norm_num, noiseIter_add, noise_chunk_54]
  decide

/-- register state after 14336 steps of the long-mode LFSR. -/
theorem noise_chunk_56 : noiseIter 1 14336 1 = 27088 := by
  rw [show (14336 : Nat) = 256 + 14080 from by norm_num, noiseIter_add, noise_chunk_55]
  decide

/-- register state after 14592 steps of the long-mode LFSR. -/
theorem noise_chunk_57 : noiseIter 1 14592 1 = 29301 := by
  rw [show (14592 : Nat) = 256 + 14336 from by norm_num, noiseIter_add, noise_chunk_56]
  decide

/-- register state after 14848 steps of the long-mode LFSR. -/
theorem noise_chunk_58 : noiseIter 1 14848 1 = 1565 := by
  rw [show (14848 : Nat) = 256 + 14592 from by norm_num, noiseIter_add, noise_chunk_57]
  decide

/-- register state after 15104 steps of the long-mode LFSR. -/
theorem noise_chunk_59 : noiseIter 1 15104 1 = 23407 := by
  rw [show (15104 : Nat) = 256 + 14848 from by norm_num, noiseIter_add, noise_chunk_58]
  decide

/-- register state after 15360 steps of the long-mode LFSR. -/
theorem noise_chunk_60 : noiseIter 1 15360 1 = 26625 := by
  rw [show (15360 : Nat) = 256 + 15104 from by norm_num, noiseIter_add, noise_chunk_59]
  decide

/-- register state after 15616 steps of the long-mode LFSR. -/
theorem noise_chunk_61 : noiseIter 1 15616 1 = 31360 := by
  rw [show (15616 : Nat) = 256 + 15360 from by norm_num, noiseIter_add, noise_chunk_60]
  decide

/-- register state after 15872 steps of the long-mode LFSR. -/
theorem noise_chunk_62 : noiseIter 1 15872 1 = 15080 := by
  rw [show (15872 : Nat) = 256 + 15616 from by norm_num, noiseIter_add, noise_chunk_61]
  decide

/-- register state after 16128 steps of the long-mode LFSR. -/
theorem noise_chunk_63 : noiseIter 1 16128 1 = 32474 := by
  rw [show (16128 : Nat) = 256 + 15872 from by norm_num, noiseIter_add, noise_chunk_62]
  decide

/-- register state after 16384 steps of the long-mode LFSR. -/
theorem noise_chunk_64 : noiseIter 1 16384 1 = 16512 := by
  rw [show (16384 : Nat) = 256 + 16128 from by norm_num, noiseIter_add, noise_chunk_63]
  decide

/-- register state after 16640 steps of the long-mode LFSR. -/
theorem noise_chunk_65 : noiseIter 1 16640 1 = 9288 := by
  rw [show (16640 : Nat) = 256 + 16384 from by norm_num, noiseIter_add, noise_chunk_64]
  decide

/-- register state after 16896 steps of the long-mode LFSR. -/
theorem noise_chunk_66 : noiseIter 1 16896 1 = 28768 := by
  rw [show (16896 : Nat) = 256 + 16640 from by norm_num, noiseIter_add, noise_chunk_65]
  decide

/-- register state after 17152 steps of the long-mode LFSR. -/
theorem noise_chunk_67 : noiseIter 1 17152 1 = 16182 := by
  rw [show (17152 : Nat) = 256 + 16896 from by norm_num, noiseIter_add, noise_chunk_66]
  decide

/-- register state after 17408 steps of the long-mode LFSR. -/
theorem noise_chunk_68 : noiseIter 1 17408 1 = 13416 := by
  rw [show (17408 : Nat) = 256 + 17152 from by norm_num, noiseIter_add, noise_chunk_67]
  decide

/-- register state after 17664 steps of the long-mode LFSR. -/
theorem noise_chunk_69 : noiseIter 1 17664 1 = 31090 := by
  rw [show (17664 : Nat) = 256 + 17408 from by norm_num, noiseIter_add, noise_chunk_68]
  decide

/-- register state after 17920 steps of the long-mode LFSR. -/
theorem noise_chunk_70 : noiseIter 1 17920 1 = 9006 := by
  rw [show (17920 : Nat) = 256 + 17664 from by norm_num, noiseIter_add, noise_chunk_69]
  decide

/-- register state after 18176 steps of the long-mode LFSR. -/
theorem noise_chunk_71 : noiseIter 1 18176 1 = 7077 := by
  rw [show (18176 : Nat) = 256 + 17920 from by norm_num, noiseIter_add, noise_chunk_70]
  decide

/-- register state after 18432 steps of the long-mode LFSR. -/
theorem noise_chunk_72 : noiseIter 1 18432 1 = 29800 := by
  rw [show (18432 : Nat) = 256 + 18176 from by norm_num, noiseIter_add, noise_chunk_71]
  decide

/-- register state after 18688 steps of the long-mode LFSR. -/
theorem noise_chunk_73 : noiseIter 1 18688 1 = 23922 := by
  rw [show (18688 : Nat) = 256 + 18432 from by norm_num, noiseIter_add, noise_chunk_72]
  decide

/-- register state after 18944 steps of the long-mode LFSR. -/
theorem noise_chunk_74 : noiseIter 1 18944 1 = 13166 := by
  rw [show (18944 : Nat) = 256 + 18688 from by norm_num, noiseIter_add, noise_chunk_73]
  decide

/-- register state after 19200 steps of the long-mode LFSR. -/
theorem noise_chunk_75 : noiseIter 1 19200 1 = 4737 := by
  rw [show (19200 : Nat) = 256 + 18944 from by norm_num, noiseIter_add, noise_chunk_74]
  decide

/-- register state after 19456 steps of the long-mode LFSR. -/
theorem noise_chunk_76 : noiseIter 1 19456 1 = 16488 := by
  rw [show (19456 : Nat) = 256 + 19200 from by norm_num, noiseIter_add, noise_chunk_75]
  decide

/-- register state after 19712 steps of the long-mode LFSR. -/
theorem noise_chunk_77 : noiseIter 1 19712 1 = 17458 := by
  rw [show (19712 : Nat) = 256 + 19456 from by norm_num, noiseIter_add, noise_chunk_76]
  decide

/-- register state after 19968 steps of the long-mode LFSR. -/
theorem noise_chunk_78 : noiseIter 1 19968 1 = 15962 := by
  rw [show (19968 : Nat) = 256 + 19712 from by norm_num, noiseIter_add, noise_chunk_77]
  decide

/-- register state after 20224 steps of the long-mode LFSR. -/
theorem noise_chunk_79 : noiseIter 1 20224 1 = 25800 := by
  rw [show (20224 : Nat) = 256 + 19968 from by norm_num, noiseIter_add, noise_chunk_78]
  decide

/-- register state after 20480 steps of the long-mode LFSR. -/
theorem noise_chunk_80 : noiseIter 1 20480 1 = 21544 := by
  rw [show (20480 : Nat) = 256 + 20224 from by norm_num, noiseIter_add, noise_chunk_79]
  decide

/-- register state after 20736 steps of the long-mode LFSR. -/
theorem noise_chunk_81 : noiseIter 1 20736 1 = 20310 := by
  rw [show (20736 : Nat) = 256 + 20480 from by norm_num, noiseIter_add, noise_chunk_80]
  decide

/-- register state after 20992 steps of the long-mode LFSR. -/
theorem noise_chunk_82 : noiseIter 1 20992 1 = 2910 := by
  rw [show (20992 : Nat) = 256 + 20736 from by norm_num, noiseIter_add, noise_chunk_81]
  decide

/-- register state after 21248 steps of the long-mode LFSR. -/
theorem noise_chunk_83 : noiseIter 1 21248 1 = 19738 := by
  rw [show (21248 : Nat) = 256 + 20992 from by norm_num, noiseIter_add, noise_chunk_82]
  decide

/-- register state after 21504 steps of the long-mode LFSR. -/
theorem noise_chunk_84 : noiseIter 1 21504 1 = 23132 := by
  rw [show (21504 : Nat) = 256 + 21248 from by norm_num, noiseIter_add, noise_chunk_83]
  decide

/-- register state after 21760 steps of the long-mode LFSR. -/
theorem noise_chunk_85 : noiseIter 1 21760 1 = 14475 := by
  rw [show (21760 : Nat) = 256 + 21504 from by norm_num, noiseIter_add, noise_chunk_84]
  decide

/-- register state after 22016 steps of the long-mode LFSR. -/
theorem noise_chunk_86 : noiseIter 1 22016 1 = 28621 := by
  rw [show (22016 : Nat) = 256 + 21760 from by norm_num, noiseIter_add, noise_chunk_85]
  decide

/-- register state after 22272 steps of the long-mode LFSR. -/
theorem noise_chunk_87 : noiseIter 1 22272 1 = 10522 := by
  rw [show (22272 : Nat) = 256 + 22016 from by norm_num, noiseIter_add, noise_chunk_86]
  decide

/-- register state after 22528 steps of the long-mode LFSR. -/
theorem noise_chunk_88 : noiseIter 1 22528 1 = 28188 := by
  rw [show (22528 : Nat) = 256 + 22272 from by norm_num, noiseIter_add, noise_chunk_87]
  decide

/-- register state after 22784 steps of the long-mode LFSR. -/
theorem noise_chunk_89 : noiseIter 1 22784 1 = 8687 := by
  rw [show (22784 : Nat) = 256 + 22528 from by norm_num, noiseIter_add, noise_chunk_88]
  decide

/-- register state after 23040 steps of the long-mode LFSR. -/
theorem noise_chunk_90 : noiseIter 1 23040 1 = 21225 := by
  rw [show (23040 : Nat) = 256 + 22784 from by norm_num, noiseIter_add, noise_chunk_89]
  decide

/-- register state after 23296 steps of the long-mode LFSR. -/
theorem noise_chunk_91 : noiseIter 1 23296 1 = 1114 := by
  rw [show (23296 : Nat) = 256 + 23040 from by norm_num, noiseIter_add, noise_chunk_90]
  decide

/-- register state after 23552 steps of the long-mode LFSR. -/
theorem noise_chunk_92 : noiseIter 1 23552 1 = 31336 := by
  rw [show (23552 : Nat) = 256 + 23296 from by norm_num, noiseIter_add, noise_chunk_91]
  decide

/-- register state after 23808 steps of the long-mode LFSR. -/
theorem noise_chunk_93 : noiseIter 1 23808 1 = 23186 := by
  rw [show (23808 : Nat) = 256 + 23552 from by norm_num, noiseIter_add, noise_chunk_92]
  decide

/-- register state after 24064 steps of the long-mode LFSR. -/
theorem noise_chunk_94 : noiseIter 1 24064 1 = 12512 := by
  rw [show (24064 : Nat) = 256 + 23808 from by norm_num, noiseIter_add, noise_chunk_93]
  decide

/-- register state after 24320 steps of the long-mode LFSR. -/
theorem noise_chunk_95 : noiseIter 1 24320 1 = 7038 := by
  rw [show (24320 : Nat) = 256 + 24064 from by norm_num, noiseIter_add, noise_chunk_94]
  decide

/-- register state after 24576 steps of the long-mode LFSR. -/
theorem noise_chunk_96 : noiseIter 1 24576 1 = 17416 := by
  rw [show (24576 : Nat) = 256 + 24320 from by norm_num, noiseIter_add, noise_chunk_95]
  decide

/-- register state after 24832 steps of the long-mode LFSR. -/
theorem noise_chunk_97 : noiseIter 1 24832 1 = 17988 := by
  rw [show (24832 : Nat) = 256 + 24576 from by norm_num, noiseIter_add, noise_chunk_96]
  decide

/-- register state after 25088 steps of the long-mode LFSR. -/
theorem noise_chunk_98 : noiseIter 1 25088 1 = 5958 := by
  rw [show (25088 : Nat) = 256 + 24832 from by norm_num, noiseIter_add, noise_chunk_97]
  decide

/-- register state after 25344 steps of the long-mode LFSR. -/
theorem noise_chunk_99 : noiseIter 1 25344 1 = 25303 := by
  rw [show (25344 : Nat) = 256 + 25088 from by norm_num, noiseIter_add, noise_chunk_98]
  decide

/-- register state after 25600 steps of the long-mode LFSR. -/
theorem noise_chunk_100 : noiseIter 1 25600 1 = 22342 := by
  rw [show (25600 : Nat) = 256 + 25344 from by norm_num, noiseIter_add, noise_chunk_99]
  decide

/-- register state after 25856 steps of the long-mode LFSR. -/
theorem noise_chunk_101 : noiseIter 1 25856 1 = 18135 := by
  rw [show (25856 : Nat) = 256 + 25600 from by norm_num, noiseIter_add, noise_chunk_100]
  decide

/-- register state after 26112 steps of the long-mode LFSR. -/
theorem noise_chunk_102 : noiseIter 1 26112 1 = 18182 := by
  rw [show (26112 : Nat) = 256 + 25856 from by norm_num, noiseIter_add, noise_chunk_101]
  decide

/-- register state after 26368 steps of the long-mode LFSR. -/
theorem noise_chunk_103 : noiseIter 1 26368 1 = 20467 := by
  rw [show (26368 : Nat) = 256 + 26112 from by norm_num, noiseIter_add, noise_chunk_102]
  decide

/-- register state after 26624 steps of the long-mode LFSR. -/
theorem noise_chunk_104 : noiseIter 1 26624 1 = 29446 := by
  rw [show (26624 : Nat) = 256 + 26368 from by norm_num, noiseIter_add, noise_chunk_103]
  decide

/-- register state after 26880 steps of the long-mode LFSR. -/
theorem noise_chunk_105 : noiseIter 1 26880 1 = 22195 := by
  rw [show (26880 : Nat) = 256 + 26624 from by norm_num, noiseIter_add, noise_chunk_104]
  decide

/-- register state after 27136 steps of the long-mode LFSR. -/
theorem noise_chunk_106 : noiseIter 1 27136 1 = 32306 := by
  rw [show (27136 : Nat) = 256 + 26880 from by norm_num, noiseIter_add, noise_chunk_105]
  decide

/-- register state after 27392 steps of the long-mode LFSR. -/
theorem noise_chunk_107 : noiseIter 1 27392 1 = 8442 := by
  rw [show (27392 : Nat) = 256 + 27136 from by norm_num, noiseIter_add, noise_chunk_106]
  decide

/-- register state after 27648 steps of the long-mode LFSR. -/
theorem noise_chunk_108 : noiseIter 1 27648 1 = 27250 := by
  rw [show (27648 : Nat) = 256 + 27392 from by norm_num, noiseIter_add, noise_chunk_107]
  decide

/-- register state after 27904 steps of the long-mode LFSR. -/
theorem noise_chunk_109 : noiseIter 1 27904 1 = 11166 := by
  rw [show (27904 : Nat) = 256 + 27648 from by norm_num, noiseIter_add, noise_chunk_108]
  decide

/-- register state after 28160 steps of the long-mode LFSR. -/
theorem noise_chunk_110 : noiseIter 1 28160 1 = 24438 := by
  rw [show (28160 : Nat) = 256 + 27904 from by norm_num, noiseIter_add, noise_chunk_109]
  decide

/-- register state after 28416 steps of the long-mode LFSR. -/
theorem noise_chunk_111 : noiseIter 1 28416 1 = 588 := by
  rw [show (28416 : Nat) = 256 + 28160 from by norm_num, noiseIter_add, noise_chunk_110]
  decide

/-- register state after 28672 steps of the long-mode LFSR. -/
theorem noise_chunk_112 : noiseIter 1 28672 1 = 20738 := by
  rw [show (28672 : Nat) = 256 + 28416 from by norm_num, noiseIter_add, noise_chunk_111]
  decide

/-- register state after 28928 steps of the long-mode LFSR. -/
theorem noise_chunk_113 : noiseIter 1 28928 1 = 30097 := by
  rw [show (28928 : Nat) = 256 + 28672 from by norm_num, noiseIter_add, noise_chunk_112]
  decide

/-- register state after 29184 steps of the long-mode LFSR. -/
theorem noise_chunk_114 : noiseIter 1 29184 1 = 13713 := by
  rw [show (29184 : Nat) = 256 + 28928 from by norm_num, noiseIter_add, noise_chunk_113]
  decide

/-- register state after 29440 steps of the long-mode LFSR. -/
theorem noise_chunk_115 : noiseIter 1 29440 1 = 4497 := by
  rw [show (29440 : Nat) = 256 + 29184 from by norm_num, noiseIter_add, noise_chunk_114]
  decide

/-- register state after 29696 steps of the long-mode LFSR. -/
theorem noise_chunk_116 : noiseIter 1 29696 1 = 465 := by
  rw [show (29696 : Nat) = 256 + 29440 from by norm_num, noiseIter_add, noise_chunk_115]
  decide

/-- register state after 29952 steps of the long-mode LFSR. -/
theorem noise_chunk_117 : noiseIter 1 29952 1 = 2293 := by
  rw [show (29952 : Nat) = 256 + 29696 from by norm_num, noiseIter_add, noise_chunk_116]
  decide

/-- register state after 30208 steps of the long-mode LFSR. -/
theorem noise_chunk_118 : noiseIter 1 30208 1 = 15605 := by
  rw [show (30208 : Nat) = 256 + 29952 from by norm_num, noiseIter_add, noise_chunk_117]
  decide

/-- register state after 30464 steps of the long-mode LFSR. -/
theorem noise_chunk_119 : noiseIter 1 30464 1 = 9653 := by
  rw [show (30464 : Nat) = 256 + 30208 from by norm_num, noiseIter_add, noise_chunk_118]
  decide

/-- register state after 30720 steps of the long-mode LFSR. -/
theorem noise_chunk_120 : noiseIter 1 30720 1 = 10369 := by
  rw [show (30720 : Nat) = 256 + 30464 from by norm_num, noiseIter_add, noise_chunk_119]
  decide

/-- register state after 30976 steps of the long-mode LFSR. -/
theorem noise_chunk_121 : noiseIter 1 30976 1 = 24264 := by
  rw [show (30976 : Nat) = 256 + 30720 from by norm_num, noiseIter_add, noise_chunk_120]
  decide

/-- register state after 31232 steps of the long-mode LFSR. -/
theorem noise_chunk_122 : noiseIter 1 31232 1 = 19080 := by
  rw [show (31232 : Nat) = 256 + 30976 from by norm_num, noiseIter_add, noise_chunk_121]
  decide

/-- register state after 31488 steps of the long-mode LFSR. -/
theorem noise_chunk_123 : noiseIter 1 31488 1 = 16876 := by
  rw [show (31488 : Nat) = 256 + 31232 from by norm_num, noiseIter_add, noise_chunk_122]
  decide

/-- register state after 31744 steps of the long-mode LFSR. -/
theorem noise_chunk_124 : noiseIter 1 31744 1 = 29928 := by
  rw [show (31744 : Nat) = 256 + 31488 from by norm_num, noiseIter_add, noise_chunk_123]
  decide

/-- register state after 32000 steps of the long-mode LFSR. -/
theorem noise_chunk_125 : noiseIter 1 32000 1 = 23866 := by
  rw [show (32000 : Nat) = 256 + 31744 from by norm_num, noiseIter_add, noise_chunk_124]
  decide

/-- register state after 32256 steps of the long-mode LFSR. -/
theorem noise_chunk_126 : noiseIter 1 32256 1 = 21326 := by
  rw [show (32256 : Nat) = 256 + 32000 from by norm_num, noiseIter_add, noise_chunk_125]
  decide

/-- register state after 32512 steps of the long-mode LFSR. -/
theorem noise_chunk_127 : noiseIter 1 32512 1 = 9363 := by
  rw [show (32512 : Nat) = 256 + 32256 from by norm_num, noiseIter_add, noise_chunk_126]
  decide

/-- the long-mode LFSR returns to the seed after 32767 steps. -/
theorem noise_long_state : noiseIter 1 32767 1 = 1 := by
  rw [show (32767 : Nat) = 255 + 32512 from by norm_num, noiseIter_add, noise_chunk_127]
  decide

/-- the short-mode LFSR returns to the seed after 93 steps. -/
theorem noise_short_state : noiseIter 6 93 1 = 1 := by decide

/-- outputs 1 and 218 of the long-mode LFSR differ (shift 217 is not a
period of the output stream). -/
theorem noise_long_ne_217 : noiseOutput 1 (1 + 217) ≠ noiseOutput 1 1 := by decide

/-- outputs 5 and 1062 of the long-mode LFSR differ (shift 1057 is not a
period of the output stream). -/
theorem noise_long_ne_1057 : noiseOutput 1 (5 + 1057) ≠ noiseOutput 1 5 := by
  have h : noiseIter 1 1063 1 = 16441 := by
    rw [show (1063 : Nat) = 39 + 1024 from by norm_num, noiseIter_add, noise_chunk_4]
    decide
  unfold noiseOutput
  rw [show (5 + 1057 + 1 : Nat) = 1063 from by norm_num, h]
  decide

/-- outputs 2 and 4683 of the long-mode LFSR differ (shift 4681 is not a
period of the output stream). -/
theorem noise_long_ne_4681 : noiseOutput 1 (2 + 4681) ≠ noiseOutput 1 2 := by
  have h : noiseIter 1 4684 1 = 18829 := by
    rw [show (4684 : Nat) = 76 + 4608 from by norm_num, noiseIter_add, noise_chunk_18]
    decide
  unfold noiseOutput
  rw [show (2 + 4681 + 1 : Nat) = 4684 from by norm_num, h]
  decide

/-- outputs 1 and 32 of the short-mode LFSR differ (shift 31 is not a
period of the output stream). -/
theorem noise_short_ne_31 : noiseOutput 6 (1 + 31) ≠ noiseOutput 6 1 := by decide

/-- outputs 11 and 14 of the short-mode LFSR differ (shift 3 is not a
period of the output stream). -/
theorem noise_short_ne_3 : noiseOutput 6 (11 + 3) ≠ noiseOutput 6 11 := by decide

/-- a shift that is a period stays a period under multiples. -/
theorem period_mul (f : Nat → Nat) (p : Nat) (hp : ∀ n, f (n + p) = f n) :
    ∀ k n, f (n + k * p) = f n := by
  intro k
  induction k with
  | zero => intro n; simp
  | succ k ih =>
    intro n
    rw [show n + (k + 1) * p = n + k * p + p from by ring]
    exact (hp (n + k * p)).trans (ih n)

/-- two periods yield the remainder as a period. -/
theorem period_mod (f : Nat → Nat) (p q : Nat) (hp : ∀ n, f (n + p) = f n)
    (hq : ∀ n, f (n + q) = f n) : ∀ n, f (n + q % p) = f n := by
  intro n
  have h1 : f (n + q % p + q / p * p) = f (n + q % p) :=
    period_mul f p hp (q / p) (n + q % p)
  have h2 : n + q % p + q / p * p = n + q := by
    rw [Nat.add_assoc, Nat.mul_comm]
    congr 1
    exact Nat.mod_add_div q p
  rw [h2] at h1
  exact h1.symm.trans (hq n)

/-- two periods yield their gcd as a period (Euclid recursion). -/
theorem period_gcd (f : Nat → Nat) : ∀ p q : Nat, (∀ n, f (n + p) = f n) →
    (∀ n, f (n + q) = f n) → ∀ n, f (n + Nat.gcd p q) = f n := by
  intro p
  induction p using Nat.strong_induction_on with
  | _ p ih =>
    intro q hp hq n
    rcases p with _ | k
    · rw [Nat.gcd_zero_left]
      exact hq n
    · rw [Nat.gcd_rec]
      exact ih (q % (k + 1)) (Nat.mod_lt _ (Nat.succ_pos k)) (k + 1)
        (period_mod f (k + 1) q hp hq) hp n

/-- a state-return after P steps makes P a period of the output stream. -/
theorem period_of_state (bit P : Nat) (hP : noiseIter bit P 1 = 1) :
    ∀ n, noiseOutput bit (n + P) = noiseOutput bit n := by
  intro n
  unfold noiseOutput
  rw [show n + P + 1 = n + 1 + P from by omega, noiseIter_add, hP]

/-- the primes dividing 32767 are 7, 31 and 151. -/
theorem prime_dvd_32767 (p : Nat) (hp : p.Prime) (hd : p ∣ 32767) :
    p = 7 ∨ p = 31 ∨ p = 151 := by
  rw [show (32767 : Nat) = 7 * (31 * 151) from by norm_num] at hd
  rcases (Nat.Prime.dvd_mul hp).mp hd with h1 | h23
  · exact Or.inl ((Nat.prime_dvd_prime_iff_eq hp (by norm_num)).mp h1)
  · rcases (Nat.Prime.dvd_mul hp).mp h23 with h2 | h3
    · exact Or.inr (Or.inl ((Nat.prime_dvd_prime_iff_eq hp (by norm_num)).mp h2))
    · exact Or.inr (Or.inr ((Nat.prime_dvd_prime_iff_eq hp (by norm_num)).mp h3))

/-- the primes dividing 93 are 3 and 31. -/
theorem prime_dvd_93 (p : Nat) (hp : p.Prime) (hd : p ∣ 93) :
    p = 3 ∨ p = 31 := by
  rw [show (93 : Nat) = 3 * 31 from by norm_num] at hd
  rcases (Nat.Prime.dvd_mul hp).mp hd with h1 | h2
  · exact Or.inl ((Nat.prime_dvd_prime_iff_eq hp (by norm_num)).mp h1)
  · exact Or.inr ((Nat.prime_dvd_prime_iff_eq hp (by norm_num)).mp h2)

/-- any period m of a stream that also has period P, with 0 < m < P,
forces a period of the form P / p for a prime p dividing P; packaged here
as: the gcd g divides m and P and a multiple chain reaches P / p. -/
theorem period_proper_divisor (f : Nat → Nat) (P m : Nat) (hm : 0 < m)
    (hP : ∀ n, f (n + P) = f n) (hper : ∀ n, f (n + m) = f n) (hlt : m < P) :
    ∃ p, p.Prime ∧ p ∣ P ∧ ∀ n, f (n + P / p) = f n := by
  have hg_per : ∀ n, f (n + Nat.gcd m P) = f n := period_gcd f m P hper hP
  have hgdvd : Nat.gcd m P ∣ P := Nat.gcd_dvd_right m P
  have hgm : Nat.gcd m P ∣ m := Nat.gcd_dvd_left m P
  have hglt : Nat.gcd m P < P := lt_of_le_of_lt (Nat.le_of_dvd hm hgm) hlt
  obtain ⟨k, hk⟩ := hgdvd
  have hk1 : k ≠ 1 := by
    intro h
    rw [h, Nat.mul_one] at hk
    omega
  have hpprime : (Nat.minFac k).Prime := Nat.minFac_prime hk1
  have hpk : Nat.minFac k ∣ k := Nat.minFac_dvd k
  have hpdvd : Nat.minFac k ∣ P := by
    rw [hk]
    exact Dvd.dvd.mul_left hpk (Nat.gcd m P)
  refine ⟨Nat.minFac k, hpprime, hpdvd, ?_⟩
  obtain ⟨t, ht⟩ := hpk
  have hppos : 0 < Nat.minFac k := hpprime.pos
  have h1 : P = Nat.gcd m P * t * Nat.minFac k := by
    conv_lhs => rw [hk, ht]
    ring
  have hPdiv : P / Nat.minFac k = Nat.gcd m P * t := by
    conv_lhs => rw [h1]
    exact Nat.mul_div_cancel _ hppos
  rw [hPdiv]
  intro n
  rw [show Nat.gcd m P * t = t * Nat.gcd m P from by ring]
  exact period_mul f (Nat.gcd m P) hg_per t n

/-- C8 (confirmed): from the seed 1, the noise LFSR output stream (bit 0
of the register after each `next()` call) is periodic with period exactly
32767 in long mode (tap bit 1) and exactly 93 in short mode (tap bit 6):
each number is a period of the stream, and no positive shorter shift is. -/
theorem noise_lfsr_period :
    ((∀ n, noiseOutput 1 (n + 32767) = noiseOutput 1 n) ∧
     (∀ m, 0 < m → (∀ n, noiseOutput 1 (n + m) = noiseOutput 1 n) → 32767 ≤ m)) ∧
    ((∀ n, noiseOutput 6 (n + 93) = noiseOutput 6 n) ∧
     (∀ m, 0 < m → (∀ n, noiseOutput 6 (n + m) = noiseOutput 6 n) → 93 ≤ m)) := by
  have hlong := period_of_state 1 32767 noise_long_state
  have hshort := period_of_state 6 93 noise_short_state
  refine ⟨⟨hlong, ?_⟩, ⟨hshort, ?_⟩⟩
  · intro m hm hper
    by_contra hlt
    push_neg at hlt
    obtain ⟨p, hp, hpd, hMper⟩ :=
      period_proper_divisor (noiseOutput 1) 32767 m hm hlong hper hlt
    rcases prime_dvd_32767 p hp hpd with h | h | h
    · rw [h] at hMper
      exact noise_long_ne_4681 (by
        have := hMper 2
        norm_num at this
        norm_num
        exact this)
    · rw [h] at hMper
      exact noise_long_ne_1057 (by
        have := hMper 5
        norm_num at this
        norm_num
        exact this)
    · rw [h] at hMper
      exact noise_long_ne_217 (by
        have := hMper 1
        norm_num at this
        norm_num
        exact this)
  · intro m hm hper
    by_contra hlt
    push_neg at hlt
    obtain ⟨p, hp, hpd, hMper⟩ :=
      period_proper_divisor (noiseOutput 6) 93 m hm hshort hper hlt
    rcases prime_dvd_93 p hp hpd with h | h
    · rw [h] at hMper
      exact noise_short_ne_31 (by
        have := hMper 1
        norm_num at this
        norm_num
        exact this)
    · rw [h] at hMper
      exact noise_short_ne_3 (by
        have := hMper 11
        norm_num at this
        norm_num
        exact this)

/-- C8 witness: the period facts applied at concrete points: output 32767
equals output 0, and the minimality bound applied to the period 32767
itself. -/
theorem noise_lfsr_period_witness :
    (noiseOutput 1 (0 + 32767) = noiseOutput 1 0) ∧
    (0 < 32767 ∧ 32767 ≤ 32767) ∧
    (noiseOutput 6 (0 + 93) = noiseOutput 6 0) ∧
    (0 < 93 ∧ 93 ≤ 93) :=
  ⟨noise_lfsr_period.1.1 0,
   ⟨by decide, noise_lfsr_period.1.2 32767 (by decide)
      (fun n => noise_lfsr_period.1.1 n)⟩,
   noise_lfsr_period.2.1 0,
   ⟨by decide, noise_lfsr_period.2.2 93 (by decide)
      (fun n => noise_lfsr_period.2.1 n)⟩⟩
